import Mathlib

/-!
# ValueObjectMemory (source/Core/ValueObjectMemory.cpp)

A shallow embedding of the memory-backed value object of the debugger core:
its constructor, which picks the initial location of the value, and
`UpdateValue`, which recomputes the location, the cached data, the error and
the validity and changed flags.

Classes whose headers and implementations are not part of the translated
sources (`Address`, `Target`, `Process`, `Type`, `Value`, `DataExtractor`,
`Error`, the `ValueObject` base class) are represented by the results of the
member functions that ValueObjectMemory.cpp calls on them.  Addresses and
scalar payloads are `lldb::addr_t` values, embedded as natural numbers; the
file performs no arithmetic on them.
-/

namespace lldb_private

/-! ## Collaborators -/

/-- Modelled from the spec: the reserved address that stands for the
"not available" answer of the address resolver.  The macro is defined in
lldb-defines.h, outside the translated sources, as `UINT64_MAX` of the 64-bit
`lldb::addr_t`; the source only ever compares against it. -/
def LLDB_INVALID_ADDRESS : Nat := 2 ^ 64 - 1

/-- An `lldb::ByteOrder` enumerator, kept as its numeric value. -/
abbrev ByteOrder := Nat

/-- The architecture of a target, as far as `UpdateValue` queries it. -/
structure ArchSpec where
  GetByteOrder : ByteOrder
  GetAddressByteSize : Nat
  deriving DecidableEq, Repr

/-- A debug target.  `UpdateValue` reads its architecture;
`Address::GetLoadAddress` consults its loaded-image map, which is carried
as uninterpreted data. -/
structure Target where
  GetArchitecture : ArchSpec
  image_load_map : List (Nat × Nat)
  deriving DecidableEq, Repr

/-- A live process.  ValueObjectMemory.cpp only tests the process pointer
for null; its memory is carried as uninterpreted data for the byte
extraction. -/
structure Process where
  memory : List (Nat × Nat)
  deriving DecidableEq, Repr

/-- The `ExecutionContext exe_ctx (GetExecutionContextScope())` snapshot that
`UpdateValue` builds on entry: the target and process pointers, either of
which may be null. -/
structure ExecutionContext where
  target : Option Target
  process : Option Process
  deriving DecidableEq, Repr

/-- A section-relative `Address`, represented by the results of the four
const member functions called in ValueObjectMemory.cpp. -/
structure Address where
  GetLoadAddress : Option Target → Nat
  GetFileAddress : Nat
  GetOffset : Nat
  IsValid : Bool

/-- A clang type handle together with the answer of
`ClangASTContext::IsAggregateType` for it. -/
structure ClangType where
  handle : Nat
  is_aggregate : Bool
  deriving DecidableEq, Repr

/-- The static `ClangASTContext::IsAggregateType (clang_type_t)`. -/
def ClangASTContext.IsAggregateType (clang_type : ClangType) : Bool :=
  clang_type.is_aggregate

/-- The symbol-layer `Type` behind `m_type_sp`, represented by the results of
the member functions that ValueObjectMemory.cpp forwards to. -/
structure LLDBType where
  GetClangForwardType : ClangType
  GetName : String
  GetNumChildren : Bool → Nat
  GetClangAST : Nat
  GetByteSize : Nat

/-- Modelled from the spec: the enumeration `Value::ValueType` (Value.h is
outside the translated sources), the tag of a value location: `Scalar`,
`FileAddress`, `LoadAddress` or `HostAddress`.  These are the four
enumerators named in `UpdateValue`; every other value the enum object may
hold is `eValueTypeUnhandled`, which is what reaches the `default:` label. -/
inductive ValueType where
  | eValueTypeScalar
  | eValueTypeFileAddress
  | eValueTypeLoadAddress
  | eValueTypeHostAddress
  | eValueTypeUnhandled (raw : Nat)
  deriving DecidableEq, Repr

/-- The enumeration `Value::ContextType`, as far as it is used here. -/
inductive ContextType where
  | eContextTypeInvalid
  | eContextTypeLLDBType
  deriving DecidableEq, Repr

/-- Modelled from the spec: the class `Value` (Value.h is outside the
translated sources), a tagged location with a numeric payload, plus the type
context that `SetContext` records. -/
structure Value where
  m_value : Nat
  m_value_type : ValueType
  m_context_type : ContextType
  m_context : Option LLDBType

/-- Reads the location tag, as `Value::GetValueType ()`. -/
def Value.GetValueType (self : Value) : ValueType := self.m_value_type

/-- Writes the location tag, as `Value::SetValueType (ValueType)`. -/
def Value.SetValueType (self : Value) (value_type : ValueType) : Value :=
  { self with m_value_type := value_type }

/-- Reads the payload, as `Value::GetScalar ()` used as an rvalue. -/
def Value.GetScalar (self : Value) : Nat := self.m_value

/-- Writes the payload, as the assignment `m_value.GetScalar() = x`. -/
def Value.SetScalar (self : Value) (x : Nat) : Value :=
  { self with m_value := x }

/-- Writes the type context, as `Value::SetContext (ContextType, void *)`. -/
def Value.SetContext (self : Value) (context_type : ContextType)
    (p : Option LLDBType) : Value :=
  { self with m_context_type := context_type, m_context := p }

/-- Modelled from the spec: the `DataExtractor` behind `m_data`
(DataExtractor.h is outside the translated sources), the cached raw byte
buffer plus the byte order and address width used to decode it. -/
structure DataExtractor where
  m_bytes : List Nat
  m_byte_order : ByteOrder
  m_addr_size : Nat
  deriving DecidableEq, Repr

/-- Sets the decoding byte order, as `DataExtractor::SetByteOrder`. -/
def DataExtractor.SetByteOrder (self : DataExtractor) (b : ByteOrder) :
    DataExtractor :=
  { self with m_byte_order := b }

/-- Sets the decoding address width, as `DataExtractor::SetAddressByteSize`. -/
def DataExtractor.SetAddressByteSize (self : DataExtractor) (n : Nat) :
    DataExtractor :=
  { self with m_addr_size := n }

/-- Modelled from the spec: the class `Error` (its header is not among the
translated sources).  The data model describes the last error of a value
object as "success or a descriptive failure". -/
inductive Error where
  | success
  | failure (description : String)
  deriving DecidableEq, Repr

/-- Resets the error to success, as `Error::Clear ()`. -/
def Error.Clear (_self : Error) : Error := Error.success

/-- Tests for success, as `Error::Success ()`. -/
def Error.Success : Error → Bool
  | Error.success => true
  | Error.failure _ => false

/-- The signature of `Value::GetValueAsData (ExecutionContext *,
clang::ASTContext *, DataExtractor &data, uint32_t data_offset)` as seen
from its two call sites: it returns an `Error` and may rewrite the
extractor passed by reference.  Its body lives in Value.cpp, outside the
translated sources, so `UpdateValue` takes it as a parameter; the receiver
`Value` is read only. -/
abbrev GetValueAsDataFn :=
  Value → ExecutionContext → Nat → DataExtractor → Nat → Error × DataExtractor

/-- The contract of the byte materializer in the specification,
`extract(location_or_scalar, type, byte_order, address_width) ->
byte_buffer | Error`: the location and type arrive in the `Value`, target
memory through the execution context. -/
abbrev Extract :=
  Value → ExecutionContext → ByteOrder → Nat → Except String (List Nat)

/-- Modelled from the spec: `Value::GetValueAsData`, whose body (Value.cpp)
is not among the translated sources.  Following the byte materializer
contract `extract(...) -> byte_buffer | Error`, a successful extraction
populates the cached buffer and reports success; a failed one reports the
provider's error description unchanged and leaves the buffer in its prior
state. -/
def Value.GetValueAsData (extract : Extract) : GetValueAsDataFn :=
  fun self exe_ctx _ast_context data _data_offset =>
    match extract self exe_ctx data.m_byte_order data.m_addr_size with
    | Except.ok bytes => (Error.success, { data with m_bytes := bytes })
    | Except.error description => (Error.failure description, data)

/-- Modelled from the spec: the byte materializer while resolution is
unavailable.  Whether `Value::GetValueAsData` (Value.cpp, outside the
translated sources) reads at a file address when no process runs is not
visible from ValueObjectMemory.cpp.  The specification settles it in its
error taxonomy, "Resolution-unavailable -- expected, not a failure: location
cannot currently be mapped to a load address (no running process); recompute
still succeeds", and in its scenario of a 4-byte integer at file address
0x1000 before any process is attached: "location exists but no data read
attempted ... validity=true and empty buffer".  So with no process an
extraction at a FileAddress location reads nothing and yields the empty
buffer; every other extraction is the one of the underlying provider. -/
def Extract.withoutProcess (extract : Extract) : Extract :=
  fun v exe_ctx byte_order addr_size =>
    match exe_ctx.process, v.m_value_type with
    | none, ValueType.eValueTypeFileAddress => Except.ok []
    | _, _ => extract v exe_ctx byte_order addr_size

/-! ## The value object -/

/-- Modelled from the spec: the members of the `ValueObject` base class
(ValueObject.h is outside the translated sources) that ValueObjectMemory.cpp
reads or writes: the target of the update point, the name, the current
location, the cached buffer, the last error, the validity flag and the
changed flag. -/
structure ValueObject where
  m_update_point_target : Option Target
  m_name : String
  m_value : Value
  m_data : DataExtractor
  m_error : Error
  m_value_is_valid : Bool
  m_value_did_change : Bool

/-- The class `ValueObjectMemory`: the base sub-object plus `m_address` and
`m_type_sp`.  The type pointer is non-null in every object of the embedding,
as the assertion of the constructor demands. -/
structure ValueObjectMemory extends ValueObject where
  m_address : Address
  m_type_sp : LLDBType

/-- Base-class setter `ValueObject::SetValueIsValid (bool)`. -/
def ValueObjectMemory.SetValueIsValid (self : ValueObjectMemory) (b : Bool) :
    ValueObjectMemory :=
  { self with m_value_is_valid := b }

/-- Base-class setter `ValueObject::SetValueDidChange (bool)`. -/
def ValueObjectMemory.SetValueDidChange (self : ValueObjectMemory) (b : Bool) :
    ValueObjectMemory :=
  { self with m_value_did_change := b }

/-- Base-class setter `ValueObject::SetName (const char *)`. -/
def ValueObjectMemory.SetName (self : ValueObjectMemory) (name : String) :
    ValueObjectMemory :=
  { self with m_name := name }

/-- The member `ValueObjectMemory::GetClangType ()`. -/
def ValueObjectMemory.GetClangType (self : ValueObjectMemory) : ClangType :=
  self.m_type_sp.GetClangForwardType

/-- The member `ValueObjectMemory::GetTypeName ()`. -/
def ValueObjectMemory.GetTypeName (self : ValueObjectMemory) : String :=
  self.m_type_sp.GetName

/-- The member `ValueObjectMemory::CalculateNumChildren ()`. -/
def ValueObjectMemory.CalculateNumChildren (self : ValueObjectMemory) : Nat :=
  self.m_type_sp.GetNumChildren true

/-- The member `ValueObjectMemory::GetClangAST ()`. -/
def ValueObjectMemory.GetClangAST (self : ValueObjectMemory) : Nat :=
  self.m_type_sp.GetClangAST

/-- The member `ValueObjectMemory::GetByteSize ()`. -/
def ValueObjectMemory.GetByteSize (self : ValueObjectMemory) : Nat :=
  self.m_type_sp.GetByteSize

/-- The member `ValueObjectMemory::IsInScope ()`. -/
def ValueObjectMemory.IsInScope (_self : ValueObjectMemory) : Bool := true

/-- The constructor `ValueObjectMemory::ValueObjectMemory`.  `base` is the
base sub-object as `ValueObject(exe_scope)` leaves it, its update point
holding the current target.  `type_sp` may be a null shared pointer; that
violates the assertion on line 45 and the result is `none`. -/
def ValueObjectMemory.ctor (base : ValueObject) (name : String)
    (address : Address) (type_sp : Option LLDBType) : Option ValueObjectMemory :=
  match type_sp with
  | none => none
  | some ty =>
    let self : ValueObjectMemory :=
      { toValueObject := base, m_address := address, m_type_sp := ty }
    let self := self.SetName name
    let self : ValueObjectMemory :=
      { self with
        m_value := self.m_value.SetContext ContextType.eContextTypeLLDBType
          (some self.m_type_sp) }
    let load_address := self.m_address.GetLoadAddress self.m_update_point_target
    if load_address != LLDB_INVALID_ADDRESS then
      let self : ValueObjectMemory :=
        { self with
          m_value := self.m_value.SetValueType ValueType.eValueTypeLoadAddress }
      some { self with m_value := self.m_value.SetScalar load_address }
    else
      let file_address := self.m_address.GetFileAddress
      if file_address != LLDB_INVALID_ADDRESS then
        let self : ValueObjectMemory :=
          { self with
            m_value := self.m_value.SetValueType ValueType.eValueTypeFileAddress }
        some { self with m_value := self.m_value.SetScalar file_address }
      else
        let self : ValueObjectMemory :=
          { self with m_value := self.m_value.SetScalar self.m_address.GetOffset }
        some { self with
               m_value := self.m_value.SetValueType ValueType.eValueTypeScalar }

/-- The member `ValueObjectMemory::UpdateValue ()`.  `NDEBUG` tells whether
assertions are compiled out; `exe_ctx` is the execution context taken from
the object's scope on entry.  The result is `none` when the assertion of
the `default:` label aborts the program, and otherwise the returned boolean
with the object after the call. -/
def ValueObjectMemory.UpdateValue (NDEBUG : Bool)
    (GetValueAsData : GetValueAsDataFn) (exe_ctx : ExecutionContext)
    (self : ValueObjectMemory) : Option (Bool × ValueObjectMemory) :=
  let self := self.SetValueIsValid false
  let self : ValueObjectMemory := { self with m_error := self.m_error.Clear }
  let self : ValueObjectMemory :=
    match exe_ctx.target with
    | some target =>
      { self with
        m_data :=
          (self.m_data.SetByteOrder target.GetArchitecture.GetByteOrder).SetAddressByteSize
            target.GetArchitecture.GetAddressByteSize }
    | none => self
  let old_value := self.m_value
  if self.m_address.IsValid then
    let value_type := self.m_value.GetValueType
    let after_switch : Option ValueObjectMemory :=
      match value_type with
      | ValueType.eValueTypeUnhandled _ =>
        if NDEBUG then some self else none
      | ValueType.eValueTypeScalar =>
        let r := GetValueAsData self.m_value exe_ctx self.GetClangAST self.m_data 0
        some { self with m_error := r.1, m_data := r.2 }
      | ValueType.eValueTypeFileAddress
      | ValueType.eValueTypeLoadAddress
      | ValueType.eValueTypeHostAddress =>
        let self : ValueObjectMemory :=
          if value_type = ValueType.eValueTypeFileAddress ∧ exe_ctx.process.isSome then
            let load_addr := self.m_address.GetLoadAddress exe_ctx.target
            if load_addr != LLDB_INVALID_ADDRESS then
              let self : ValueObjectMemory :=
                { self with
                  m_value := self.m_value.SetValueType ValueType.eValueTypeLoadAddress }
              { self with m_value := self.m_value.SetScalar load_addr }
            else self
          else self
        if ClangASTContext.IsAggregateType self.GetClangType then
          some (self.SetValueDidChange
            (value_type != old_value.GetValueType
              || self.m_value.GetScalar != old_value.GetScalar))
        else
          let value := self.m_value
          let value := value.SetContext ContextType.eContextTypeLLDBType
            (some self.m_type_sp)
          let r := GetValueAsData value exe_ctx self.GetClangAST self.m_data 0
          some { self with m_error := r.1, m_data := r.2 }
    match after_switch with
    | none => none
    | some self =>
      let self := self.SetValueIsValid self.m_error.Success
      some (self.m_error.Success, self)
  else
    some (self.m_error.Success, self)

/-! ## Vocabulary for the statements -/

/-- Whether a location tag is one of the four enumerators that the switch of
`UpdateValue` handles by a `case` label. -/
def ValueType.isHandled : ValueType → Bool
  | ValueType.eValueTypeUnhandled _ => false
  | _ => true

/-- Whether a call of `UpdateValue` on this object runs into the failing
assertion of the `default:` label and aborts: assertions are compiled in, the
address is valid and the location tag has no `case` label. -/
def ValueObjectMemory.assertionFires (NDEBUG : Bool) (self : ValueObjectMemory) :
    Bool :=
  !NDEBUG && self.m_address.IsValid && !self.m_value.GetValueType.isHandled

/-- The cached extractor after lines 119-123 of `UpdateValue`: byte order and
address size are taken from the target when there is one. -/
def snapshotArch (exe_ctx : ExecutionContext) (data : DataExtractor) : DataExtractor :=
  match exe_ctx.target with
  | some target =>
    (data.SetByteOrder target.GetArchitecture.GetByteOrder).SetAddressByteSize
      target.GetArchitecture.GetAddressByteSize
  | none => data

/-- The location after lines 154-162 of `UpdateValue`: a FileAddress location
becomes a LoadAddress one when a process is present and the address resolves
to a valid load address; any other location is left alone. -/
def ValueObjectMemory.resolvedValue (exe_ctx : ExecutionContext)
    (self : ValueObjectMemory) : Value :=
  if self.m_value.GetValueType = ValueType.eValueTypeFileAddress
      ∧ exe_ctx.process.isSome
      ∧ self.m_address.GetLoadAddress exe_ctx.target ≠ LLDB_INVALID_ADDRESS then
    (self.m_value.SetValueType ValueType.eValueTypeLoadAddress).SetScalar
      (self.m_address.GetLoadAddress exe_ctx.target)
  else self.m_value

/-- The `Value` and `DataExtractor` arguments of the one call of
`GetValueAsData` that `UpdateValue` makes (lines 139 and 177), or `none` on
the paths that make no such call: an invalid address, the `default:` label,
and an aggregate type at an address location. -/
def ValueObjectMemory.extractionArgs (exe_ctx : ExecutionContext)
    (self : ValueObjectMemory) : Option (Value × DataExtractor) :=
  if self.m_address.IsValid then
    match self.m_value.GetValueType with
    | ValueType.eValueTypeUnhandled _ => none
    | ValueType.eValueTypeScalar => some (self.m_value, snapshotArch exe_ctx self.m_data)
    | ValueType.eValueTypeFileAddress
    | ValueType.eValueTypeLoadAddress
    | ValueType.eValueTypeHostAddress =>
      if ClangASTContext.IsAggregateType self.GetClangType then none
      else
        some ((self.resolvedValue exe_ctx).SetContext ContextType.eContextTypeLLDBType
          (some self.m_type_sp), snapshotArch exe_ctx self.m_data)
  else none

/-- A run of consecutive `UpdateValue` calls on one object, one execution
context per call; `none` when one of the calls aborts. -/
def ValueObjectMemory.UpdateValueSeq (NDEBUG : Bool)
    (GetValueAsData : GetValueAsDataFn) :
    List ExecutionContext → ValueObjectMemory → Option ValueObjectMemory
  | [], self => some self
  | exe_ctx :: rest, self =>
    match self.UpdateValue NDEBUG GetValueAsData exe_ctx with
    | none => none
    | some (_, self') => ValueObjectMemory.UpdateValueSeq NDEBUG GetValueAsData rest self'

/-- The same object with the load-address query of its `m_address` replaced. -/
def ValueObjectMemory.withGetLoadAddress (self : ValueObjectMemory)
    (f : Option Target → Nat) : ValueObjectMemory :=
  { self with m_address := { self.m_address with GetLoadAddress := f } }

/-! ## A worked scenario

A 4-byte integer and a struct at file address 0x1000 of an image that a
running process maps at base 0x555500000000. -/

/-- The scalar type of the scenario, a 4-byte integer. -/
def sampleIntType : LLDBType :=
  { GetClangForwardType := { handle := 1, is_aggregate := false },
    GetName := "int", GetNumChildren := fun _ => 0, GetClangAST := 7, GetByteSize := 4 }

/-- The aggregate type of the scenario, a struct of three 4-byte members. -/
def sampleStructType : LLDBType :=
  { GetClangForwardType := { handle := 2, is_aggregate := true },
    GetName := "point3", GetNumChildren := fun _ => 3, GetClangAST := 7, GetByteSize := 12 }

/-- The target of the scenario: little endian (4), 8-byte addresses. -/
def sampleTarget : Target :=
  { GetArchitecture := { GetByteOrder := 4, GetAddressByteSize := 8 },
    image_load_map := [(0, 0x555500000000)] }

/-- The running process of the scenario. -/
def sampleProcess : Process := { memory := [(0x555500001000, 42)] }

/-- No target and no process: nothing is being debugged yet. -/
def noContext : ExecutionContext := { target := none, process := none }

/-- A target is selected but no process runs. -/
def staticContext : ExecutionContext := { target := some sampleTarget, process := none }

/-- A process runs under the target. -/
def liveContext : ExecutionContext :=
  { target := some sampleTarget, process := some sampleProcess }

/-- File address 0x1000 in a section that is loaded at 0x555500001000 once
a target is there to ask. -/
def sampleAddress : Address :=
  { GetLoadAddress := fun target =>
      match target with
      | some _ => 0x555500001000
      | none => LLDB_INVALID_ADDRESS
    GetFileAddress := 0x1000, GetOffset := 0x1000, IsValid := true }

/-- File address 0x1000 in the image of a position-dependent executable: it
is loaded at the very address it has in the file. -/
def fixedAddress : Address :=
  { GetLoadAddress := fun target =>
      match target with
      | some _ => 0x1000
      | none => LLDB_INVALID_ADDRESS
    GetFileAddress := 0x1000, GetOffset := 0x1000, IsValid := true }

/-- A default-constructed address: no section, every query invalid. -/
def invalidAddress : Address :=
  { GetLoadAddress := fun _ => LLDB_INVALID_ADDRESS
    GetFileAddress := LLDB_INVALID_ADDRESS, GetOffset := LLDB_INVALID_ADDRESS,
    IsValid := false }

/-- The base sub-object of a freshly constructed value object with no target
at its update point. -/
def sampleBase : ValueObject :=
  { m_update_point_target := none, m_name := "",
    m_value :=
      { m_value := 0, m_value_type := ValueType.eValueTypeScalar,
        m_context_type := ContextType.eContextTypeInvalid, m_context := none },
    m_data := { m_bytes := [], m_byte_order := 0, m_addr_size := 0 },
    m_error := Error.success, m_value_is_valid := false, m_value_did_change := false }

/-- A value object at a FileAddress location with the given address and type,
as the constructor leaves it when no target is known. -/
def sampleObject (address : Address) (ty : LLDBType) : ValueObjectMemory :=
  { toValueObject :=
      { sampleBase with
        m_name := "g_var",
        m_value :=
          { m_value := address.GetFileAddress,
            m_value_type := ValueType.eValueTypeFileAddress,
            m_context_type := ContextType.eContextTypeLLDBType, m_context := some ty } },
    m_address := address, m_type_sp := ty }

/-- The struct of the scenario with a location tag that has no `case` label
in `UpdateValue`, here the raw enumerator value 7. -/
def unhandledObject : ValueObjectMemory :=
  { sampleObject sampleAddress sampleStructType with
    m_value :=
      { m_value := 0x1000, m_value_type := ValueType.eValueTypeUnhandled 7,
        m_context_type := ContextType.eContextTypeLLDBType,
        m_context := some sampleStructType } }

/-- A memory provider for the scenario: a Scalar payload is copied, a read
at a load address succeeds while a process runs, and any other read fails. -/
def sampleExtract : Extract := fun v exe_ctx _byte_order _addr_size =>
  match v.m_value_type, exe_ctx.process with
  | ValueType.eValueTypeScalar, _ => Except.ok [v.m_value % 256]
  | ValueType.eValueTypeLoadAddress, some _ => Except.ok [42, 0, 0, 0]
  | _, _ => Except.error "unable to read memory"

end lldb_private

namespace lldb_private

/-! ## The constructor -/

/-- C1: for every address and target, the constructor chooses the initial
location as follows: a valid load address under the current target gives
the tag LoadAddress with that load address as payload; otherwise a valid
file address gives the tag FileAddress with that file address as payload;
otherwise the tag is Scalar and the payload is the raw offset. -/
theorem ctor_initial_location (base : ValueObject) (name : String)
    (address : Address) (ty : LLDBType) :
    ∃ obj, ValueObjectMemory.ctor base name address (some ty) = some obj ∧
      (if address.GetLoadAddress base.m_update_point_target ≠ LLDB_INVALID_ADDRESS then
        obj.m_value.GetValueType = ValueType.eValueTypeLoadAddress ∧
          obj.m_value.GetScalar = address.GetLoadAddress base.m_update_point_target
      else if address.GetFileAddress ≠ LLDB_INVALID_ADDRESS then
        obj.m_value.GetValueType = ValueType.eValueTypeFileAddress ∧
          obj.m_value.GetScalar = address.GetFileAddress
      else
        obj.m_value.GetValueType = ValueType.eValueTypeScalar ∧
          obj.m_value.GetScalar = address.GetOffset) := by
  unfold ValueObjectMemory.ctor
  by_cases h1 : address.GetLoadAddress base.m_update_point_target = LLDB_INVALID_ADDRESS
  · by_cases h2 : address.GetFileAddress = LLDB_INVALID_ADDRESS
    · simp [h1, h2, ValueObjectMemory.SetName, Value.SetContext, Value.SetValueType,
        Value.SetScalar, Value.GetValueType, Value.GetScalar]
    · simp [h1, h2, ValueObjectMemory.SetName, Value.SetContext, Value.SetValueType,
        Value.SetScalar, Value.GetValueType, Value.GetScalar]
  · simp [h1, ValueObjectMemory.SetName, Value.SetContext, Value.SetValueType,
      Value.SetScalar, Value.GetValueType, Value.GetScalar]

/-! ## One call of UpdateValue -/

/-- The outcome of `UpdateValue` when `m_address.IsValid()` is false. -/
theorem UpdateValue_of_invalid (NDEBUG : Bool) (GetValueAsData : GetValueAsDataFn)
    (exe_ctx : ExecutionContext) (self : ValueObjectMemory)
    (h : self.m_address.IsValid = false) :
    self.UpdateValue NDEBUG GetValueAsData exe_ctx
      = some (true, { self with
          m_value_is_valid := false, m_error := Error.success,
          m_data := snapshotArch exe_ctx self.m_data }) := by
  obtain ⟨t, pr⟩ := exe_ctx
  cases t <;>
    simp [ValueObjectMemory.UpdateValue, h, ValueObjectMemory.SetValueIsValid, Error.Clear,
      Error.Success, snapshotArch]

/-- The outcome of `UpdateValue` on the `default:` label. -/
theorem UpdateValue_of_unhandled (NDEBUG : Bool) (GetValueAsData : GetValueAsDataFn)
    (exe_ctx : ExecutionContext) (self : ValueObjectMemory) (raw : Nat)
    (h : self.m_address.IsValid = true)
    (htag : self.m_value.GetValueType = ValueType.eValueTypeUnhandled raw) :
    self.UpdateValue NDEBUG GetValueAsData exe_ctx
      = if NDEBUG then
          some (true, { self with
            m_value_is_valid := true, m_error := Error.success,
            m_data := snapshotArch exe_ctx self.m_data })
        else none := by
  obtain ⟨t, pr⟩ := exe_ctx
  simp only [Value.GetValueType] at htag
  cases t <;> cases NDEBUG <;>
    simp [ValueObjectMemory.UpdateValue, h, htag, ValueObjectMemory.SetValueIsValid,
      Error.Clear, Error.Success, snapshotArch, Value.GetValueType]

/-- The outcome of `UpdateValue` on the `eValueTypeScalar` label. -/
theorem UpdateValue_of_scalar (NDEBUG : Bool) (GetValueAsData : GetValueAsDataFn)
    (exe_ctx : ExecutionContext) (self : ValueObjectMemory)
    (h : self.m_address.IsValid = true)
    (htag : self.m_value.GetValueType = ValueType.eValueTypeScalar) :
    self.UpdateValue NDEBUG GetValueAsData exe_ctx
      = some ((GetValueAsData self.m_value exe_ctx self.GetClangAST
                (snapshotArch exe_ctx self.m_data) 0).1.Success,
          { self with
            m_value_is_valid :=
              (GetValueAsData self.m_value exe_ctx self.GetClangAST
                (snapshotArch exe_ctx self.m_data) 0).1.Success,
            m_error :=
              (GetValueAsData self.m_value exe_ctx self.GetClangAST
                (snapshotArch exe_ctx self.m_data) 0).1,
            m_data :=
              (GetValueAsData self.m_value exe_ctx self.GetClangAST
                (snapshotArch exe_ctx self.m_data) 0).2 }) := by
  obtain ⟨t, pr⟩ := exe_ctx
  simp only [Value.GetValueType] at htag
  cases t <;>
    simp [ValueObjectMemory.UpdateValue, h, htag, ValueObjectMemory.SetValueIsValid,
      Error.Clear, snapshotArch, Value.GetValueType, ValueObjectMemory.GetClangAST]

/-- The outcome of `UpdateValue` on the address labels for an aggregate type. -/
theorem UpdateValue_of_aggregate (NDEBUG : Bool) (GetValueAsData : GetValueAsDataFn)
    (exe_ctx : ExecutionContext) (self : ValueObjectMemory)
    (h : self.m_address.IsValid = true)
    (htag : self.m_value.GetValueType = ValueType.eValueTypeFileAddress
      ∨ self.m_value.GetValueType = ValueType.eValueTypeLoadAddress
      ∨ self.m_value.GetValueType = ValueType.eValueTypeHostAddress)
    (hagg : ClangASTContext.IsAggregateType self.GetClangType = true) :
    self.UpdateValue NDEBUG GetValueAsData exe_ctx
      = some (true, { self with
          m_value := self.resolvedValue exe_ctx,
          m_value_did_change :=
            (self.resolvedValue exe_ctx).GetScalar != self.m_value.GetScalar,
          m_value_is_valid := true, m_error := Error.success,
          m_data := snapshotArch exe_ctx self.m_data }) := by
  simp only [Value.GetValueType] at htag
  simp only [ValueObjectMemory.GetClangType] at hagg
  by_cases hp : exe_ctx.process.isSome = true <;>
    by_cases hl : self.m_address.GetLoadAddress exe_ctx.target = LLDB_INVALID_ADDRESS <;>
    rcases htag with htag | htag | htag <;>
    cases ht : exe_ctx.target <;>
    simp only [ht] at hl <;>
    simp [ValueObjectMemory.UpdateValue, h, htag, hagg, hp, hl, ht,
      ValueObjectMemory.SetValueIsValid, ValueObjectMemory.SetValueDidChange,
      ValueObjectMemory.resolvedValue, ValueObjectMemory.GetClangType,
      Error.Clear, Error.Success, snapshotArch, Value.GetValueType, Value.GetScalar,
      Value.SetValueType, Value.SetScalar]

/-- The outcome of `UpdateValue` on the address labels for a type that is not
an aggregate. -/
theorem UpdateValue_of_simple (NDEBUG : Bool) (GetValueAsData : GetValueAsDataFn)
    (exe_ctx : ExecutionContext) (self : ValueObjectMemory)
    (h : self.m_address.IsValid = true)
    (htag : self.m_value.GetValueType = ValueType.eValueTypeFileAddress
      ∨ self.m_value.GetValueType = ValueType.eValueTypeLoadAddress
      ∨ self.m_value.GetValueType = ValueType.eValueTypeHostAddress)
    (hagg : ClangASTContext.IsAggregateType self.GetClangType = false) :
    self.UpdateValue NDEBUG GetValueAsData exe_ctx
      = some ((GetValueAsData
                ((self.resolvedValue exe_ctx).SetContext ContextType.eContextTypeLLDBType
                  (some self.m_type_sp))
                exe_ctx self.GetClangAST (snapshotArch exe_ctx self.m_data) 0).1.Success,
          { self with
            m_value := self.resolvedValue exe_ctx,
            m_value_is_valid :=
              (GetValueAsData
                ((self.resolvedValue exe_ctx).SetContext ContextType.eContextTypeLLDBType
                  (some self.m_type_sp))
                exe_ctx self.GetClangAST (snapshotArch exe_ctx self.m_data) 0).1.Success,
            m_error :=
              (GetValueAsData
                ((self.resolvedValue exe_ctx).SetContext ContextType.eContextTypeLLDBType
                  (some self.m_type_sp))
                exe_ctx self.GetClangAST (snapshotArch exe_ctx self.m_data) 0).1,
            m_data :=
              (GetValueAsData
                ((self.resolvedValue exe_ctx).SetContext ContextType.eContextTypeLLDBType
                  (some self.m_type_sp))
                exe_ctx self.GetClangAST (snapshotArch exe_ctx self.m_data) 0).2 }) := by
  simp only [Value.GetValueType] at htag
  simp only [ValueObjectMemory.GetClangType] at hagg
  by_cases hp : exe_ctx.process.isSome = true <;>
    by_cases hl : self.m_address.GetLoadAddress exe_ctx.target = LLDB_INVALID_ADDRESS <;>
    rcases htag with htag | htag | htag <;>
    cases ht : exe_ctx.target <;>
    simp only [ht] at hl <;>
    simp [ValueObjectMemory.UpdateValue, h, htag, hagg, hp, hl, ht,
      ValueObjectMemory.SetValueIsValid,
      ValueObjectMemory.resolvedValue, ValueObjectMemory.GetClangType,
      ValueObjectMemory.GetClangAST,
      Error.Clear, snapshotArch, Value.GetValueType,
      Value.SetValueType, Value.SetScalar, Value.SetContext]

/-- Only a FileAddress location is ever resolved. -/
theorem resolvedValue_of_not_file (exe_ctx : ExecutionContext) (self : ValueObjectMemory)
    (h : self.m_value.GetValueType ≠ ValueType.eValueTypeFileAddress) :
    self.resolvedValue exe_ctx = self.m_value := by
  simp [ValueObjectMemory.resolvedValue, h]

/-- Without a process no location is resolved. -/
theorem resolvedValue_of_no_process (exe_ctx : ExecutionContext) (self : ValueObjectMemory)
    (h : exe_ctx.process = none) :
    self.resolvedValue exe_ctx = self.m_value := by
  simp [ValueObjectMemory.resolvedValue, h]

/-- On the paths that call `GetValueAsData`, the outcome of `UpdateValue` is
fixed by what that one call answers. -/
theorem UpdateValue_of_extraction (NDEBUG : Bool) (GetValueAsData : GetValueAsDataFn)
    (exe_ctx : ExecutionContext) (self : ValueObjectMemory) (v : Value) (d : DataExtractor)
    (h : self.extractionArgs exe_ctx = some (v, d)) :
    self.UpdateValue NDEBUG GetValueAsData exe_ctx
      = some ((GetValueAsData v exe_ctx self.GetClangAST d 0).1.Success,
          { self with
            m_value := self.resolvedValue exe_ctx,
            m_value_is_valid := (GetValueAsData v exe_ctx self.GetClangAST d 0).1.Success,
            m_error := (GetValueAsData v exe_ctx self.GetClangAST d 0).1,
            m_data := (GetValueAsData v exe_ctx self.GetClangAST d 0).2 }) := by
  unfold ValueObjectMemory.extractionArgs at h
  cases hv : self.m_address.IsValid
  · simp [hv] at h
  · simp only [hv, if_true] at h
    cases hagg : ClangASTContext.IsAggregateType self.GetClangType <;>
    cases htag : self.m_value.GetValueType <;>
    simp [htag, hagg] at h
    all_goals obtain ⟨rfl, rfl⟩ := h
    · rw [UpdateValue_of_scalar NDEBUG GetValueAsData exe_ctx self hv htag,
        resolvedValue_of_not_file exe_ctx self (by simp [htag])]
    · exact UpdateValue_of_simple NDEBUG GetValueAsData exe_ctx self hv (by simp [htag]) hagg
    · exact UpdateValue_of_simple NDEBUG GetValueAsData exe_ctx self hv (by simp [htag]) hagg
    · exact UpdateValue_of_simple NDEBUG GetValueAsData exe_ctx self hv (by simp [htag]) hagg
    · rw [UpdateValue_of_scalar NDEBUG GetValueAsData exe_ctx self hv htag,
        resolvedValue_of_not_file exe_ctx self (by simp [htag])]

/-- The handled tags are the four named enumerators. -/
theorem isHandled_cases (t : ValueType) (h : t.isHandled = true) :
    t = ValueType.eValueTypeScalar ∨ t = ValueType.eValueTypeFileAddress
      ∨ t = ValueType.eValueTypeLoadAddress ∨ t = ValueType.eValueTypeHostAddress := by
  cases t <;> simp [ValueType.isHandled] at h ⊢

/-- What every returning call of `UpdateValue` leaves behind, whatever
`GetValueAsData` does. -/
theorem UpdateValue_returns (NDEBUG : Bool) (GetValueAsData : GetValueAsDataFn)
    (exe_ctx : ExecutionContext) (self : ValueObjectMemory)
    (hret : self.assertionFires NDEBUG = false) :
    ∃ r self', self.UpdateValue NDEBUG GetValueAsData exe_ctx = some (r, self') ∧
      self'.m_value
        = (if self.m_address.IsValid then self.resolvedValue exe_ctx else self.m_value) ∧
      self'.m_address = self.m_address ∧ self'.m_type_sp = self.m_type_sp ∧
      r = self'.m_error.Success ∧
      self'.m_value_is_valid = (self.m_address.IsValid && self'.m_error.Success) ∧
      (self.m_address.IsValid = false → self'.m_error = Error.success) := by
  cases hv : self.m_address.IsValid
  · rw [UpdateValue_of_invalid NDEBUG GetValueAsData exe_ctx self hv]
    exact ⟨_, _, rfl, by simp [Error.Success]⟩
  · cases hh : self.m_value.GetValueType.isHandled
    · cases htag : self.m_value.GetValueType <;> simp [htag, ValueType.isHandled] at hh
      rw [UpdateValue_of_unhandled NDEBUG GetValueAsData exe_ctx self _ hv htag]
      have hn : NDEBUG = true := by
        simpa [ValueObjectMemory.assertionFires, hv, htag, ValueType.isHandled] using hret
      subst hn
      refine ⟨_, _, rfl, ?_⟩
      simp [Error.Success]
      exact (resolvedValue_of_not_file exe_ctx self (by simp [htag])).symm
    · rcases isHandled_cases _ hh with htag | htag
      · rw [UpdateValue_of_scalar NDEBUG GetValueAsData exe_ctx self hv htag]
        refine ⟨_, _, rfl, ?_⟩
        simp
        exact (resolvedValue_of_not_file exe_ctx self (by simp [htag])).symm
      · cases hagg : ClangASTContext.IsAggregateType self.GetClangType
        · rw [UpdateValue_of_simple NDEBUG GetValueAsData exe_ctx self hv htag hagg]
          exact ⟨_, _, rfl, by simp⟩
        · rw [UpdateValue_of_aggregate NDEBUG GetValueAsData exe_ctx self hv htag hagg]
          exact ⟨_, _, rfl, by simp [Error.Success]⟩

/-- A call of `UpdateValue` aborts exactly when the assertion fires. -/
theorem UpdateValue_eq_none_iff (NDEBUG : Bool) (GetValueAsData : GetValueAsDataFn)
    (exe_ctx : ExecutionContext) (self : ValueObjectMemory) :
    self.UpdateValue NDEBUG GetValueAsData exe_ctx = none
      ↔ self.assertionFires NDEBUG = true := by
  constructor
  · intro h
    by_contra hc
    obtain ⟨r, s, hs, _⟩ := UpdateValue_returns NDEBUG GetValueAsData exe_ctx self
      (by simpa using hc)
    simp [hs] at h
  · intro h
    simp only [ValueObjectMemory.assertionFires, Bool.and_eq_true, Bool.not_eq_true',
      Bool.not_eq_eq_eq_not, Bool.not_true] at h
    obtain ⟨⟨hn, hv⟩, hh⟩ := h
    cases htag : self.m_value.GetValueType <;> simp [htag, ValueType.isHandled] at hh
    rw [UpdateValue_of_unhandled NDEBUG GetValueAsData exe_ctx self _ hv htag]
    simp [hn]

/-- Unless the location is a FileAddress, `UpdateValue` never consults the
load-address query of `m_address`: replacing the query changes nothing else. -/
theorem UpdateValue_withGetLoadAddress (NDEBUG : Bool) (GetValueAsData : GetValueAsDataFn)
    (exe_ctx : ExecutionContext) (self : ValueObjectMemory) (f : Option Target → Nat)
    (h : self.m_address.IsValid = false
      ∨ self.m_value.GetValueType ≠ ValueType.eValueTypeFileAddress) :
    (self.withGetLoadAddress f).UpdateValue NDEBUG GetValueAsData exe_ctx
      = (self.UpdateValue NDEBUG GetValueAsData exe_ctx).map
          (fun p => (p.1, p.2.withGetLoadAddress f)) := by
  cases hv : self.m_address.IsValid
  · rw [UpdateValue_of_invalid NDEBUG GetValueAsData exe_ctx self hv,
      UpdateValue_of_invalid NDEBUG GetValueAsData exe_ctx (self.withGetLoadAddress f) hv]
    rfl
  · have hnf : self.m_value.GetValueType ≠ ValueType.eValueTypeFileAddress := by
      rcases h with h | h
      · simp [hv] at h
      · exact h
    have hnf' : (self.withGetLoadAddress f).m_value.GetValueType
        ≠ ValueType.eValueTypeFileAddress := hnf
    have hv' : (self.withGetLoadAddress f).m_address.IsValid = true := hv
    cases htag : self.m_value.GetValueType with
    | eValueTypeUnhandled raw =>
      rw [UpdateValue_of_unhandled NDEBUG GetValueAsData exe_ctx self raw hv htag,
        UpdateValue_of_unhandled NDEBUG GetValueAsData exe_ctx (self.withGetLoadAddress f)
          raw hv htag]
      cases NDEBUG <;> rfl
    | eValueTypeScalar =>
      rw [UpdateValue_of_scalar NDEBUG GetValueAsData exe_ctx self hv htag,
        UpdateValue_of_scalar NDEBUG GetValueAsData exe_ctx (self.withGetLoadAddress f)
          hv htag]
      rfl
    | eValueTypeFileAddress => exact absurd htag hnf
    | eValueTypeLoadAddress =>
      have ht : self.m_value.GetValueType = ValueType.eValueTypeFileAddress
          ∨ self.m_value.GetValueType = ValueType.eValueTypeLoadAddress
          ∨ self.m_value.GetValueType = ValueType.eValueTypeHostAddress := by simp [htag]
      cases hagg : ClangASTContext.IsAggregateType self.GetClangType
      · rw [UpdateValue_of_simple NDEBUG GetValueAsData exe_ctx self hv ht hagg,
          UpdateValue_of_simple NDEBUG GetValueAsData exe_ctx (self.withGetLoadAddress f)
            hv ht hagg,
          resolvedValue_of_not_file exe_ctx self hnf,
          resolvedValue_of_not_file exe_ctx (self.withGetLoadAddress f) hnf']
        rfl
      · rw [UpdateValue_of_aggregate NDEBUG GetValueAsData exe_ctx self hv ht hagg,
          UpdateValue_of_aggregate NDEBUG GetValueAsData exe_ctx (self.withGetLoadAddress f)
            hv ht hagg,
          resolvedValue_of_not_file exe_ctx self hnf,
          resolvedValue_of_not_file exe_ctx (self.withGetLoadAddress f) hnf']
        rfl
    | eValueTypeHostAddress =>
      have ht : self.m_value.GetValueType = ValueType.eValueTypeFileAddress
          ∨ self.m_value.GetValueType = ValueType.eValueTypeLoadAddress
          ∨ self.m_value.GetValueType = ValueType.eValueTypeHostAddress := by simp [htag]
      cases hagg : ClangASTContext.IsAggregateType self.GetClangType
      · rw [UpdateValue_of_simple NDEBUG GetValueAsData exe_ctx self hv ht hagg,
          UpdateValue_of_simple NDEBUG GetValueAsData exe_ctx (self.withGetLoadAddress f)
            hv ht hagg,
          resolvedValue_of_not_file exe_ctx self hnf,
          resolvedValue_of_not_file exe_ctx (self.withGetLoadAddress f) hnf']
        rfl
      · rw [UpdateValue_of_aggregate NDEBUG GetValueAsData exe_ctx self hv ht hagg,
          UpdateValue_of_aggregate NDEBUG GetValueAsData exe_ctx (self.withGetLoadAddress f)
            hv ht hagg,
          resolvedValue_of_not_file exe_ctx self hnf,
          resolvedValue_of_not_file exe_ctx (self.withGetLoadAddress f) hnf']
        rfl

/-- C2: a single UpdateValue call that returns changes the location only
through the FileAddress-to-LoadAddress transition.  With a valid address, the
tag FileAddress, a process present and a valid resolved load address L, the
tag afterwards is LoadAddress and the payload is L; in every other case tag
and payload are what they were before.  A location that is already
LoadAddress is not resolved again: the outcome is the same whatever the
load-address query of the address would answer. -/
theorem UpdateValue_location (NDEBUG : Bool) (GetValueAsData : GetValueAsDataFn)
    (exe_ctx : ExecutionContext) (self : ValueObjectMemory)
    (hret : self.assertionFires NDEBUG = false) :
    ∃ r self', self.UpdateValue NDEBUG GetValueAsData exe_ctx = some (r, self') ∧
      ((self.m_address.IsValid = true
          ∧ self.m_value.GetValueType = ValueType.eValueTypeFileAddress
          ∧ exe_ctx.process.isSome = true
          ∧ self.m_address.GetLoadAddress exe_ctx.target ≠ LLDB_INVALID_ADDRESS) →
        self'.m_value.GetValueType = ValueType.eValueTypeLoadAddress ∧
          self'.m_value.GetScalar = self.m_address.GetLoadAddress exe_ctx.target) ∧
      (¬ (self.m_address.IsValid = true
          ∧ self.m_value.GetValueType = ValueType.eValueTypeFileAddress
          ∧ exe_ctx.process.isSome = true
          ∧ self.m_address.GetLoadAddress exe_ctx.target ≠ LLDB_INVALID_ADDRESS) →
        self'.m_value.GetValueType = self.m_value.GetValueType ∧
          self'.m_value.GetScalar = self.m_value.GetScalar) ∧
      (self.m_value.GetValueType = ValueType.eValueTypeLoadAddress →
        ∀ f : Option Target → Nat,
          (self.withGetLoadAddress f).UpdateValue NDEBUG GetValueAsData exe_ctx
            = some (r, self'.withGetLoadAddress f)) := by
  obtain ⟨r, self', hs, hval, -⟩ :=
    UpdateValue_returns NDEBUG GetValueAsData exe_ctx self hret
  refine ⟨r, self', hs, ?_, ?_, ?_⟩
  · rintro ⟨hv, htag, hp, hl⟩
    rw [hval]
    simp only [Value.GetValueType] at htag
    simp [hv, ValueObjectMemory.resolvedValue, htag, hp, hl, Value.GetValueType,
      Value.GetScalar, Value.SetValueType, Value.SetScalar]
  · intro hn
    rw [hval]
    by_cases hv : self.m_address.IsValid = true
    · have : ¬ (self.m_value.GetValueType = ValueType.eValueTypeFileAddress
          ∧ exe_ctx.process.isSome = true
          ∧ self.m_address.GetLoadAddress exe_ctx.target ≠ LLDB_INVALID_ADDRESS) :=
        fun hc => hn ⟨hv, hc⟩
      simp [hv, ValueObjectMemory.resolvedValue, this]
    · simp [hv]
  · intro htag f
    rw [UpdateValue_withGetLoadAddress NDEBUG GetValueAsData exe_ctx self f
      (Or.inr (by simp [htag])), hs]
    rfl

/-- C2 at the scenario: the integer at file address 0x1000 moves to load
address 0x555500001000 once the process runs. -/
theorem UpdateValue_location_witness :
    (sampleObject sampleAddress sampleIntType).assertionFires false = false ∧
    ∃ r self', (sampleObject sampleAddress sampleIntType).UpdateValue false
        (Value.GetValueAsData sampleExtract) liveContext = some (r, self') ∧
      self'.m_value.GetValueType = ValueType.eValueTypeLoadAddress ∧
      self'.m_value.GetScalar = 0x555500001000 := by
  obtain ⟨r, self', hs, h1, -⟩ :=
    UpdateValue_location false (Value.GetValueAsData sampleExtract) liveContext
      (sampleObject sampleAddress sampleIntType) (by decide)
  exact ⟨by decide, r, self', hs, h1 ⟨rfl, rfl, rfl, by decide⟩⟩

/-! ## Runs of UpdateValue calls -/

/-- Resolution keeps the tag or moves it from FileAddress to LoadAddress. -/
theorem resolvedValue_tag (exe_ctx : ExecutionContext) (self : ValueObjectMemory) :
    (self.resolvedValue exe_ctx).GetValueType = self.m_value.GetValueType
      ∨ (self.m_value.GetValueType = ValueType.eValueTypeFileAddress
        ∧ (self.resolvedValue exe_ctx).GetValueType = ValueType.eValueTypeLoadAddress) := by
  unfold ValueObjectMemory.resolvedValue
  split
  · rename_i h
    exact Or.inr ⟨h.1, rfl⟩
  · exact Or.inl rfl

/-- One call on an object whose tag has a `case` label returns, keeps the tag
among the handled ones and keeps a LoadAddress tag as it is. -/
theorem UpdateValue_handled (NDEBUG : Bool) (GetValueAsData : GetValueAsDataFn)
    (exe_ctx : ExecutionContext) (self : ValueObjectMemory)
    (hh : self.m_value.GetValueType.isHandled = true) :
    ∃ r self', self.UpdateValue NDEBUG GetValueAsData exe_ctx = some (r, self') ∧
      self'.m_value.GetValueType.isHandled = true ∧
      (self.m_value.GetValueType = ValueType.eValueTypeLoadAddress →
        self'.m_value.GetValueType = ValueType.eValueTypeLoadAddress) := by
  obtain ⟨r, self', hs, hval, -⟩ :=
    UpdateValue_returns NDEBUG GetValueAsData exe_ctx self
      (by simp [ValueObjectMemory.assertionFires, hh])
  refine ⟨r, self', hs, ?_, ?_⟩
  · rw [hval]
    split
    · rcases resolvedValue_tag exe_ctx self with h | ⟨-, h⟩
      · rw [h]; exact hh
      · rw [h]; rfl
    · exact hh
  · intro hl
    rw [hval]
    split
    · rw [resolvedValue_of_not_file exe_ctx self (by simp [hl])]; exact hl
    · exact hl

/-- A run of calls on an object with a handled tag never aborts, keeps the tag
handled and keeps a LoadAddress tag. -/
theorem UpdateValueSeq_handled (NDEBUG : Bool) (GetValueAsData : GetValueAsDataFn)
    (cs : List ExecutionContext) :
    ∀ self : ValueObjectMemory, self.m_value.GetValueType.isHandled = true →
      ∃ self', ValueObjectMemory.UpdateValueSeq NDEBUG GetValueAsData cs self = some self' ∧
        self'.m_value.GetValueType.isHandled = true ∧
        (self.m_value.GetValueType = ValueType.eValueTypeLoadAddress →
          self'.m_value.GetValueType = ValueType.eValueTypeLoadAddress) := by
  induction cs with
  | nil => intro self hh; exact ⟨self, rfl, hh, id⟩
  | cons c cs ih =>
    intro self hh
    obtain ⟨r, s1, hs, hh1, hl1⟩ := UpdateValue_handled NDEBUG GetValueAsData c self hh
    obtain ⟨s2, hs2, hh2, hl2⟩ := ih s1 hh1
    refine ⟨s2, ?_, hh2, fun hl => hl2 (hl1 hl)⟩
    simp [ValueObjectMemory.UpdateValueSeq, hs, hs2]

/-- A run over a concatenation is the run over the first part followed by the
run over the second. -/
theorem UpdateValueSeq_append (NDEBUG : Bool) (GetValueAsData : GetValueAsDataFn)
    (cs1 cs2 : List ExecutionContext) :
    ∀ self : ValueObjectMemory,
      ValueObjectMemory.UpdateValueSeq NDEBUG GetValueAsData (cs1 ++ cs2) self
        = (ValueObjectMemory.UpdateValueSeq NDEBUG GetValueAsData cs1 self).bind
            (ValueObjectMemory.UpdateValueSeq NDEBUG GetValueAsData cs2) := by
  induction cs1 with
  | nil => intro self; rfl
  | cons c cs ih =>
    intro self
    simp only [List.cons_append, ValueObjectMemory.UpdateValueSeq]
    cases h : self.UpdateValue NDEBUG GetValueAsData c with
    | none => rfl
    | some p => exact ih p.2

/-- C3 (P1, tag monotonicity): take any object at a FileAddress location, in
particular one that the constructor left there, and run any finite sequence
of UpdateValue calls on it, each under its own execution context.  Every
call returns, and once the tag has been observed as LoadAddress after some
prefix of the calls it is LoadAddress, hence not FileAddress, after every
longer prefix. -/
theorem UpdateValueSeq_tag_monotone (NDEBUG : Bool) (GetValueAsData : GetValueAsDataFn)
    (obj : ValueObjectMemory)
    (hfile : obj.m_value.GetValueType = ValueType.eValueTypeFileAddress)
    (cs later : List ExecutionContext) :
    ∃ s1, ValueObjectMemory.UpdateValueSeq NDEBUG GetValueAsData cs obj = some s1 ∧
      (s1.m_value.GetValueType = ValueType.eValueTypeLoadAddress →
        ∃ s2, ValueObjectMemory.UpdateValueSeq NDEBUG GetValueAsData (cs ++ later) obj
            = some s2 ∧
          s2.m_value.GetValueType = ValueType.eValueTypeLoadAddress ∧
          s2.m_value.GetValueType ≠ ValueType.eValueTypeFileAddress) := by
  have hh : obj.m_value.GetValueType.isHandled = true := by rw [hfile]; rfl
  obtain ⟨s1, hs1, hh1, -⟩ := UpdateValueSeq_handled NDEBUG GetValueAsData cs obj hh
  refine ⟨s1, hs1, fun hl => ?_⟩
  obtain ⟨s2, hs2, -, hl2⟩ := UpdateValueSeq_handled NDEBUG GetValueAsData later s1 hh1
  refine ⟨s2, ?_, hl2 hl, ?_⟩
  · rw [UpdateValueSeq_append, hs1]; exact hs2
  · rw [hl2 hl]; simp

/-- C3 at the scenario: the integer constructed at file address 0x1000 is
resolved by the first call under a live process and stays at its load
address when the process is gone again. -/
theorem UpdateValueSeq_tag_monotone_witness :
    ValueObjectMemory.ctor sampleBase "g_var" sampleAddress (some sampleIntType)
        = some (sampleObject sampleAddress sampleIntType) ∧
    (sampleObject sampleAddress sampleIntType).m_value.GetValueType
        = ValueType.eValueTypeFileAddress ∧
    ∃ s1, ValueObjectMemory.UpdateValueSeq false (Value.GetValueAsData sampleExtract)
        [noContext, liveContext] (sampleObject sampleAddress sampleIntType) = some s1 ∧
      (s1.m_value.GetValueType = ValueType.eValueTypeLoadAddress →
        ∃ s2, ValueObjectMemory.UpdateValueSeq false (Value.GetValueAsData sampleExtract)
            ([noContext, liveContext] ++ [noContext, staticContext])
            (sampleObject sampleAddress sampleIntType) = some s2 ∧
          s2.m_value.GetValueType = ValueType.eValueTypeLoadAddress ∧
          s2.m_value.GetValueType ≠ ValueType.eValueTypeFileAddress) :=
  ⟨rfl, rfl,
    UpdateValueSeq_tag_monotone false (Value.GetValueAsData sampleExtract)
      (sampleObject sampleAddress sampleIntType) rfl
      [noContext, liveContext] [noContext, staticContext]⟩

/-! ## The changed flag -/

/-- On the aggregate path the changed flag is decided by the payload alone:
line 169 compares the saved `value_type` with the tag of `old_value`, two
copies of the tag before the call. -/
theorem UpdateValue_changed_of_aggregate (NDEBUG : Bool) (GetValueAsData : GetValueAsDataFn)
    (exe_ctx : ExecutionContext) (self : ValueObjectMemory)
    (h : self.m_address.IsValid = true)
    (htag : self.m_value.GetValueType = ValueType.eValueTypeFileAddress
      ∨ self.m_value.GetValueType = ValueType.eValueTypeLoadAddress
      ∨ self.m_value.GetValueType = ValueType.eValueTypeHostAddress)
    (hagg : ClangASTContext.IsAggregateType self.GetClangType = true) :
    ∃ self', self.UpdateValue NDEBUG GetValueAsData exe_ctx = some (true, self') ∧
      self'.m_value_did_change = (self'.m_value.GetScalar != self.m_value.GetScalar) := by
  rw [UpdateValue_of_aggregate NDEBUG GetValueAsData exe_ctx self h htag hagg]
  exact ⟨_, rfl, rfl⟩

/-- C4, the code at the failing input: a struct at file address 0x1000 whose
image is loaded at its file addresses.  The call under a live process moves
the tag from FileAddress to LoadAddress with the payload still 0x1000, and
the changed flag comes out false although the tag differs. -/
theorem UpdateValue_changed_flag_misses_tag_change :
    (sampleObject fixedAddress sampleStructType).m_address.IsValid = true ∧
    ClangASTContext.IsAggregateType
        (sampleObject fixedAddress sampleStructType).GetClangType = true ∧
    (sampleObject fixedAddress sampleStructType).m_value.GetValueType
        = ValueType.eValueTypeFileAddress ∧
    (sampleObject fixedAddress sampleStructType).m_value.GetScalar = 0x1000 ∧
    ((sampleObject fixedAddress sampleStructType).UpdateValue false
        (Value.GetValueAsData sampleExtract) liveContext).map
      (fun p => (p.1, p.2.m_value.GetValueType, p.2.m_value.GetScalar,
        p.2.m_value_did_change))
      = some (true, ValueType.eValueTypeLoadAddress, 0x1000, false) := by
  refine ⟨rfl, rfl, rfl, rfl, ?_⟩
  decide

/-! ## Validity, the return value and errors -/

/-- C5 fails on an object without a valid address: the call under no
execution context meets no error and returns true, yet the validity flag
afterwards is false, so it is neither "true exactly when no error occurred"
nor equal to the returned boolean. -/
theorem UpdateValue_invalid_address_validity_differs :
    ∃ r self', (sampleObject invalidAddress sampleIntType).UpdateValue false
        (Value.GetValueAsData sampleExtract) noContext = some (r, self') ∧
      self'.m_error.Success = true ∧ self'.m_value_is_valid = false ∧
      r ≠ self'.m_value_is_valid := by
  obtain ⟨r, self', hs, -, -, -, hr, hvalid, herr⟩ :=
    UpdateValue_returns false (Value.GetValueAsData sampleExtract) noContext
      (sampleObject invalidAddress sampleIntType) rfl
  have he : self'.m_error.Success = true := by rw [herr rfl]; rfl
  have hv : self'.m_value_is_valid = false := by rw [hvalid]; rfl
  exact ⟨r, self', hs, he, hv, by rw [hr, he, hv]; decide⟩

/-- C5 as amended: every call of UpdateValue that does not abort returns
whether the stored error is success.  With a valid address the validity flag
afterwards is true exactly when no error occurred, and the returned boolean
equals the validity flag.  With an invalid address the call returns true
with a success error and leaves the validity flag false. -/
theorem UpdateValue_validity (NDEBUG : Bool) (GetValueAsData : GetValueAsDataFn)
    (exe_ctx : ExecutionContext) (self : ValueObjectMemory)
    (hret : self.assertionFires NDEBUG = false) :
    ∃ r self', self.UpdateValue NDEBUG GetValueAsData exe_ctx = some (r, self') ∧
      r = self'.m_error.Success ∧
      (self.m_address.IsValid = true →
        self'.m_value_is_valid = self'.m_error.Success ∧ r = self'.m_value_is_valid) ∧
      (self.m_address.IsValid = false →
        r = true ∧ self'.m_error = Error.success ∧ self'.m_value_is_valid = false) := by
  obtain ⟨r, self', hs, -, -, -, hr, hvalid, herr⟩ :=
    UpdateValue_returns NDEBUG GetValueAsData exe_ctx self hret
  refine ⟨r, self', hs, hr, ?_, ?_⟩
  · intro hv
    rw [hvalid, hr, hv]
    simp
  · intro hv
    rw [hvalid, hr, herr hv, hv]
    exact ⟨rfl, rfl, rfl⟩

/-- C5 as amended, at the scenario: reading the integer at its file address
fails while no process runs; the call returns false and the object is
invalid. -/
theorem UpdateValue_validity_witness :
    (sampleObject sampleAddress sampleIntType).assertionFires false = false ∧
    ∃ r self', (sampleObject sampleAddress sampleIntType).UpdateValue false
        (Value.GetValueAsData sampleExtract) staticContext = some (r, self') ∧
      r = self'.m_error.Success ∧ self'.m_value_is_valid = self'.m_error.Success ∧
      r = self'.m_value_is_valid := by
  obtain ⟨r, self', hs, hr, hv, -⟩ :=
    UpdateValue_validity false (Value.GetValueAsData sampleExtract) staticContext
      (sampleObject sampleAddress sampleIntType) (by decide)
  exact ⟨by decide, r, self', hs, hr, (hv rfl).1, (hv rfl).2⟩

/-- `extractionArgs` always passes the cached extractor as lines 119-123
leave it. -/
theorem extractionArgs_data (exe_ctx : ExecutionContext) (self : ValueObjectMemory)
    (v : Value) (d : DataExtractor) (h : self.extractionArgs exe_ctx = some (v, d)) :
    d = snapshotArch exe_ctx self.m_data := by
  unfold ValueObjectMemory.extractionArgs at h
  cases hv : self.m_address.IsValid
  · simp [hv] at h
  · simp only [hv, if_true] at h
    cases hagg : ClangASTContext.IsAggregateType self.GetClangType <;>
    cases htag : self.m_value.GetValueType <;>
    simp [htag, hagg] at h <;> exact h.2.symm

/-- Lines 119-123 never touch the bytes of the cached buffer. -/
theorem snapshotArch_bytes (exe_ctx : ExecutionContext) (data : DataExtractor) :
    (snapshotArch exe_ctx data).m_bytes = data.m_bytes := by
  unfold snapshotArch
  cases exe_ctx.target <;> rfl

/-- On the paths that make no call of `GetValueAsData`, the outcome of
`UpdateValue` is the same for every extraction function. -/
theorem UpdateValue_of_no_extraction (NDEBUG : Bool) (g1 g2 : GetValueAsDataFn)
    (exe_ctx : ExecutionContext) (self : ValueObjectMemory)
    (h : self.extractionArgs exe_ctx = none) :
    self.UpdateValue NDEBUG g1 exe_ctx = self.UpdateValue NDEBUG g2 exe_ctx := by
  unfold ValueObjectMemory.extractionArgs at h
  cases hv : self.m_address.IsValid
  · rw [UpdateValue_of_invalid NDEBUG g1 exe_ctx self hv,
      UpdateValue_of_invalid NDEBUG g2 exe_ctx self hv]
  · simp only [hv, if_true] at h
    cases hagg : ClangASTContext.IsAggregateType self.GetClangType <;>
    cases htag : self.m_value.GetValueType <;>
    simp [htag, hagg] at h
    · rw [UpdateValue_of_unhandled NDEBUG g1 exe_ctx self _ hv htag,
        UpdateValue_of_unhandled NDEBUG g2 exe_ctx self _ hv htag]
    · rw [UpdateValue_of_aggregate NDEBUG g1 exe_ctx self hv (by simp [htag]) hagg,
        UpdateValue_of_aggregate NDEBUG g2 exe_ctx self hv (by simp [htag]) hagg]
    · rw [UpdateValue_of_aggregate NDEBUG g1 exe_ctx self hv (by simp [htag]) hagg,
        UpdateValue_of_aggregate NDEBUG g2 exe_ctx self hv (by simp [htag]) hagg]
    · rw [UpdateValue_of_aggregate NDEBUG g1 exe_ctx self hv (by simp [htag]) hagg,
        UpdateValue_of_aggregate NDEBUG g2 exe_ctx self hv (by simp [htag]) hagg]
    · rw [UpdateValue_of_unhandled NDEBUG g1 exe_ctx self _ hv htag,
        UpdateValue_of_unhandled NDEBUG g2 exe_ctx self _ hv htag]

/-- C6: whenever the byte extraction that UpdateValue performs reports an
error e, the call is recovered locally: UpdateValue returns false, the
validity flag is false afterwards and the stored error is exactly e. -/
theorem UpdateValue_extraction_error (NDEBUG : Bool) (GetValueAsData : GetValueAsDataFn)
    (exe_ctx : ExecutionContext) (self : ValueObjectMemory)
    (v : Value) (d d' : DataExtractor) (e : Error)
    (hargs : self.extractionArgs exe_ctx = some (v, d))
    (hcall : GetValueAsData v exe_ctx self.GetClangAST d 0 = (e, d'))
    (herr : e.Success = false) :
    ∃ self', self.UpdateValue NDEBUG GetValueAsData exe_ctx = some (false, self') ∧
      self'.m_value_is_valid = false ∧ self'.m_error = e := by
  rw [UpdateValue_of_extraction NDEBUG GetValueAsData exe_ctx self v d hargs, hcall]
  simp only [herr]
  exact ⟨_, rfl, rfl, rfl⟩

/-- C6 at the scenario: with a target but no process the read of the integer
at file address 0x1000 reports "unable to read memory", and that error is
what the object stores. -/
theorem UpdateValue_extraction_error_witness :
    ∃ v d d', (sampleObject sampleAddress sampleIntType).extractionArgs staticContext
        = some (v, d) ∧
      Value.GetValueAsData sampleExtract v staticContext
        (sampleObject sampleAddress sampleIntType).GetClangAST d 0
        = (Error.failure "unable to read memory", d') ∧
      (Error.failure "unable to read memory").Success = false ∧
      ∃ self', (sampleObject sampleAddress sampleIntType).UpdateValue false
          (Value.GetValueAsData sampleExtract) staticContext = some (false, self') ∧
        self'.m_value_is_valid = false ∧
        self'.m_error = Error.failure "unable to read memory" :=
  ⟨_, _, _, rfl, rfl, rfl,
    UpdateValue_extraction_error false (Value.GetValueAsData sampleExtract) staticContext
      (sampleObject sampleAddress sampleIntType) _ _ _ _ rfl rfl rfl⟩

/-! ## The cached buffer -/

/-- C7 (P2, no partial writes), for the byte materializer of the
specification: if the extraction that UpdateValue performs fails with a read
error, UpdateValue returns false, stores that error, and the bytes of the
cached buffer after the call are the bytes before the call.  Without a
target the whole extractor, byte order and address size included, is the
one before the call. -/
theorem UpdateValue_read_failure_keeps_buffer (NDEBUG : Bool) (extract : Extract)
    (exe_ctx : ExecutionContext) (self : ValueObjectMemory)
    (v : Value) (d : DataExtractor) (description : String)
    (hargs : self.extractionArgs exe_ctx = some (v, d))
    (hfail : extract v exe_ctx d.m_byte_order d.m_addr_size = Except.error description) :
    ∃ self', self.UpdateValue NDEBUG (Value.GetValueAsData extract) exe_ctx
        = some (false, self') ∧
      self'.m_error = Error.failure description ∧
      self'.m_data.m_bytes = self.m_data.m_bytes ∧
      (exe_ctx.target = none → self'.m_data = self.m_data) := by
  have hcall : Value.GetValueAsData extract v exe_ctx self.GetClangAST d 0
      = (Error.failure description, d) := by
    simp [Value.GetValueAsData, hfail]
  rw [UpdateValue_of_extraction NDEBUG (Value.GetValueAsData extract) exe_ctx self v d hargs,
    hcall]
  have hd := extractionArgs_data exe_ctx self v d hargs
  refine ⟨_, rfl, rfl, ?_, ?_⟩
  · show d.m_bytes = self.m_data.m_bytes
    rw [hd, snapshotArch_bytes]
  · intro ht
    show d = self.m_data
    rw [hd]
    simp [snapshotArch, ht]

/-- C7 at the scenario: the integer was read as 42 while the process ran;
the read after the process is gone fails and the four cached bytes stay. -/
theorem UpdateValue_read_failure_keeps_buffer_witness :
    ∃ v d,
      ({ sampleObject sampleAddress sampleIntType with
          m_data := { m_bytes := [42, 0, 0, 0], m_byte_order := 4, m_addr_size := 8 } }
        : ValueObjectMemory).extractionArgs staticContext = some (v, d) ∧
      sampleExtract v staticContext d.m_byte_order d.m_addr_size
        = Except.error "unable to read memory" ∧
      ∃ self',
        ({ sampleObject sampleAddress sampleIntType with
            m_data := { m_bytes := [42, 0, 0, 0], m_byte_order := 4, m_addr_size := 8 } }
          : ValueObjectMemory).UpdateValue false (Value.GetValueAsData sampleExtract)
            staticContext = some (false, self') ∧
        self'.m_error = Error.failure "unable to read memory" ∧
        self'.m_data.m_bytes = [42, 0, 0, 0] := by
  obtain ⟨self', hs, he, hb, -⟩ :=
    UpdateValue_read_failure_keeps_buffer false sampleExtract staticContext
      { sampleObject sampleAddress sampleIntType with
        m_data := { m_bytes := [42, 0, 0, 0], m_byte_order := 4, m_addr_size := 8 } }
      _ _ _ rfl rfl
  exact ⟨_, _, rfl, rfl, self', hs, he, hb⟩

/-- C8: on an object whose address is invalid UpdateValue is a no-op that
reports success with no data.  It returns true with a success error, it
leaves the tag and the payload of the location, the changed flag and the
bytes of the cached buffer as they were, it makes no call of GetValueAsData
and the outcome depends neither on the extraction function nor on the
load-address query of the address. -/
theorem UpdateValue_invalid_address_noop (NDEBUG : Bool) (GetValueAsData : GetValueAsDataFn)
    (exe_ctx : ExecutionContext) (self : ValueObjectMemory)
    (hinv : self.m_address.IsValid = false) :
    ∃ self', self.UpdateValue NDEBUG GetValueAsData exe_ctx = some (true, self') ∧
      self'.m_error = Error.success ∧
      self'.m_value.GetValueType = self.m_value.GetValueType ∧
      self'.m_value.GetScalar = self.m_value.GetScalar ∧
      self'.m_value_did_change = self.m_value_did_change ∧
      self'.m_data.m_bytes = self.m_data.m_bytes ∧
      self.extractionArgs exe_ctx = none ∧
      ∀ (other : GetValueAsDataFn) (f : Option Target → Nat),
        (self.withGetLoadAddress f).UpdateValue NDEBUG other exe_ctx
          = some (true, self'.withGetLoadAddress f) := by
  rw [UpdateValue_of_invalid NDEBUG GetValueAsData exe_ctx self hinv]
  refine ⟨_, rfl, rfl, rfl, rfl, rfl, snapshotArch_bytes exe_ctx self.m_data, ?_, ?_⟩
  · simp [ValueObjectMemory.extractionArgs, hinv]
  · intro other f
    rw [UpdateValue_of_invalid NDEBUG other exe_ctx (self.withGetLoadAddress f) hinv]
    rfl

/-- C8 at the scenario: a value object built on a default address. -/
theorem UpdateValue_invalid_address_noop_witness :
    (sampleObject invalidAddress sampleIntType).m_address.IsValid = false ∧
    ∃ self', (sampleObject invalidAddress sampleIntType).UpdateValue false
        (Value.GetValueAsData sampleExtract) liveContext = some (true, self') ∧
      self'.m_error = Error.success ∧
      self'.m_value.GetValueType = ValueType.eValueTypeFileAddress ∧
      self'.m_value_did_change = false ∧ self'.m_data.m_bytes = [] := by
  obtain ⟨self', hs, he, ht, -, hc, hb, -⟩ :=
    UpdateValue_invalid_address_noop false (Value.GetValueAsData sampleExtract) liveContext
      (sampleObject invalidAddress sampleIntType) rfl
  exact ⟨rfl, self', hs, he, ht, hc, hb⟩

/-! ## No process -/

/-- The extracting path only forwards what the extraction answers: the
integer at file address 0x1000, with no target and no process, is still
handed to `GetValueAsData` (lines 175-177), and with a provider that, unlike
the scenario of the specification, attempts the read and fails, UpdateValue
returns false with the validity flag false and that error stored, while the
tag stays FileAddress. -/
theorem UpdateValue_scalar_type_without_process_fails :
    (sampleObject sampleAddress sampleIntType).m_address.IsValid = true ∧
    (sampleObject sampleAddress sampleIntType).m_value.GetValueType
        = ValueType.eValueTypeFileAddress ∧
    ClangASTContext.IsAggregateType
        (sampleObject sampleAddress sampleIntType).GetClangType = false ∧
    noContext.process = none ∧
    ((sampleObject sampleAddress sampleIntType).UpdateValue false
        (Value.GetValueAsData sampleExtract) noContext).map
      (fun p => (p.1, p.2.m_value_is_valid, p.2.m_error, p.2.m_value.GetValueType))
      = some (false, false, Error.failure "unable to read memory",
          ValueType.eValueTypeFileAddress) := by
  refine ⟨rfl, rfl, rfl, rfl, ?_⟩
  decide

/-- What the code alone fixes, for every extraction function: for an object
with a valid address and the tag FileAddress, when no process is present
UpdateValue returns, the location stays FileAddress with its payload, the
returned boolean equals the validity flag, and both are true exactly when
the stored error is success.  For an aggregate type the call succeeds: it
returns true with a success error.  For any other type `GetValueAsData` is
still called at the file address and the stored error is whatever it
reports. -/
theorem UpdateValue_file_address_without_process (NDEBUG : Bool)
    (GetValueAsData : GetValueAsDataFn) (exe_ctx : ExecutionContext)
    (self : ValueObjectMemory)
    (hv : self.m_address.IsValid = true)
    (htag : self.m_value.GetValueType = ValueType.eValueTypeFileAddress)
    (hp : exe_ctx.process = none) :
    ∃ r self', self.UpdateValue NDEBUG GetValueAsData exe_ctx = some (r, self') ∧
      self'.m_value.GetValueType = ValueType.eValueTypeFileAddress ∧
      self'.m_value.GetScalar = self.m_value.GetScalar ∧
      r = self'.m_value_is_valid ∧
      self'.m_value_is_valid = self'.m_error.Success ∧
      (ClangASTContext.IsAggregateType self.GetClangType = true →
        r = true ∧ self'.m_error = Error.success) ∧
      (ClangASTContext.IsAggregateType self.GetClangType = false →
        self'.m_error
          = (GetValueAsData
              (self.m_value.SetContext ContextType.eContextTypeLLDBType
                (some self.m_type_sp))
              exe_ctx self.GetClangAST (snapshotArch exe_ctx self.m_data) 0).1) := by
  have ht : self.m_value.GetValueType = ValueType.eValueTypeFileAddress
      ∨ self.m_value.GetValueType = ValueType.eValueTypeLoadAddress
      ∨ self.m_value.GetValueType = ValueType.eValueTypeHostAddress := Or.inl htag
  have hres := resolvedValue_of_no_process exe_ctx self hp
  cases hagg : ClangASTContext.IsAggregateType self.GetClangType
  · rw [UpdateValue_of_simple NDEBUG GetValueAsData exe_ctx self hv ht hagg, hres]
    exact ⟨_, _, rfl, htag, rfl, rfl, rfl, by simp, fun _ => rfl⟩
  · rw [UpdateValue_of_aggregate NDEBUG GetValueAsData exe_ctx self hv ht hagg, hres]
    exact ⟨_, _, rfl, htag, rfl, rfl, rfl, fun _ => ⟨rfl, rfl⟩, by simp⟩

/-- `UpdateValue_file_address_without_process` at the scenario: the struct at
file address 0x1000 with a target selected and no process running. -/
theorem UpdateValue_file_address_without_process_witness :
    (sampleObject sampleAddress sampleStructType).m_address.IsValid = true ∧
    (sampleObject sampleAddress sampleStructType).m_value.GetValueType
        = ValueType.eValueTypeFileAddress ∧
    staticContext.process = none ∧
    ∃ r self', (sampleObject sampleAddress sampleStructType).UpdateValue false
        (Value.GetValueAsData sampleExtract) staticContext = some (r, self') ∧
      self'.m_value.GetValueType = ValueType.eValueTypeFileAddress ∧
      self'.m_value.GetScalar = 0x1000 ∧ r = true ∧ self'.m_value_is_valid = true ∧
      self'.m_error = Error.success := by
  obtain ⟨r, self', hs, ht, hpay, hr, -, hagg, -⟩ :=
    UpdateValue_file_address_without_process false (Value.GetValueAsData sampleExtract)
      staticContext (sampleObject sampleAddress sampleStructType) rfl rfl rfl
  exact ⟨rfl, rfl, rfl, r, self', hs, ht, hpay, (hagg rfl).1, by rw [← hr]; exact (hagg rfl).1,
    (hagg rfl).2⟩

/-- With no process, the modelled extraction at a FileAddress location reads
nothing and reports success. -/
theorem GetValueAsData_withoutProcess (extract : Extract) (v : Value)
    (exe_ctx : ExecutionContext) (ast : Nat) (d : DataExtractor)
    (hp : exe_ctx.process = none)
    (htag : v.GetValueType = ValueType.eValueTypeFileAddress) :
    Value.GetValueAsData (Extract.withoutProcess extract) v exe_ctx ast d 0
      = (Error.success, { d with m_bytes := [] }) := by
  simp only [Value.GetValueType] at htag
  simp [Value.GetValueAsData, Extract.withoutProcess, hp, htag]

/-- C9 (resolution-unavailable is not a failure), for the byte materializer
of the specification: for every object with a valid address and the tag
FileAddress, of an aggregate or a scalar type, when no process is present
UpdateValue still succeeds: it returns true, the validity flag is true, the
stored error is success, and the location stays FileAddress with its
payload.  For an aggregate type this is the outcome with every extraction
function. -/
theorem UpdateValue_resolution_unavailable_succeeds (NDEBUG : Bool) (extract : Extract)
    (exe_ctx : ExecutionContext) (self : ValueObjectMemory)
    (hv : self.m_address.IsValid = true)
    (htag : self.m_value.GetValueType = ValueType.eValueTypeFileAddress)
    (hp : exe_ctx.process = none) :
    ∃ self', self.UpdateValue NDEBUG
        (Value.GetValueAsData (Extract.withoutProcess extract)) exe_ctx
        = some (true, self') ∧
      self'.m_value_is_valid = true ∧ self'.m_error = Error.success ∧
      self'.m_error.Success = true ∧
      self'.m_value.GetValueType = ValueType.eValueTypeFileAddress ∧
      self'.m_value.GetScalar = self.m_value.GetScalar ∧
      (ClangASTContext.IsAggregateType self.GetClangType = true →
        ∀ other : GetValueAsDataFn,
          self.UpdateValue NDEBUG other exe_ctx = some (true, self')) := by
  have ht : self.m_value.GetValueType = ValueType.eValueTypeFileAddress
      ∨ self.m_value.GetValueType = ValueType.eValueTypeLoadAddress
      ∨ self.m_value.GetValueType = ValueType.eValueTypeHostAddress := Or.inl htag
  have hres := resolvedValue_of_no_process exe_ctx self hp
  cases hagg : ClangASTContext.IsAggregateType self.GetClangType
  · have hcall := GetValueAsData_withoutProcess extract
      (self.m_value.SetContext ContextType.eContextTypeLLDBType (some self.m_type_sp))
      exe_ctx self.GetClangAST (snapshotArch exe_ctx self.m_data) hp htag
    rw [UpdateValue_of_simple NDEBUG _ exe_ctx self hv ht hagg, hres, hcall]
    exact ⟨_, rfl, rfl, rfl, rfl, htag, rfl, fun h => Bool.noConfusion h⟩
  · rw [UpdateValue_of_aggregate NDEBUG _ exe_ctx self hv ht hagg, hres]
    refine ⟨_, rfl, rfl, rfl, rfl, htag, rfl, fun _ other => ?_⟩
    rw [UpdateValue_of_aggregate NDEBUG other exe_ctx self hv ht hagg, hres]

/-- C9 at the scenario of the specification: the 4-byte integer at file
address 0x1000 before any process is attached, over a provider whose reads
fail wherever no process runs. -/
theorem UpdateValue_resolution_unavailable_succeeds_witness :
    (sampleObject sampleAddress sampleIntType).m_address.IsValid = true ∧
    (sampleObject sampleAddress sampleIntType).m_value.GetValueType
        = ValueType.eValueTypeFileAddress ∧
    ClangASTContext.IsAggregateType
        (sampleObject sampleAddress sampleIntType).GetClangType = false ∧
    noContext.process = none ∧
    ∃ self', (sampleObject sampleAddress sampleIntType).UpdateValue false
        (Value.GetValueAsData (Extract.withoutProcess sampleExtract)) noContext
        = some (true, self') ∧
      self'.m_value_is_valid = true ∧ self'.m_error = Error.success ∧
      self'.m_value.GetValueType = ValueType.eValueTypeFileAddress ∧
      self'.m_value.GetScalar = 0x1000 := by
  obtain ⟨self', hs, hvalid, herr, -, htag, hpay, -⟩ :=
    UpdateValue_resolution_unavailable_succeeds false sampleExtract noContext
      (sampleObject sampleAddress sampleIntType) rfl rfl rfl
  exact ⟨rfl, rfl, rfl, rfl, self', hs, hvalid, herr, htag, hpay⟩

/-! ## Idempotence without an execution context -/

/-- Without a target lines 119-123 leave the cached extractor alone. -/
theorem snapshotArch_noContext (data : DataExtractor) :
    snapshotArch noContext data = data := rfl

/-- Extracting again into the buffer that an extraction produced gives the
same answer: the modelled `GetValueAsData` reads only the byte order and the
address size of the buffer it is handed, and changes neither. -/
theorem GetValueAsData_again (extract : Extract) (v : Value) (exe_ctx : ExecutionContext)
    (ast : Nat) (d : DataExtractor) :
    Value.GetValueAsData extract v exe_ctx ast
        (Value.GetValueAsData extract v exe_ctx ast d 0).2 0
      = Value.GetValueAsData extract v exe_ctx ast d 0 := by
  unfold Value.GetValueAsData
  cases h : extract v exe_ctx d.m_byte_order d.m_addr_size <;> simp [h]

/-- The address labels of `UpdateValue_noContext_again`. -/
theorem UpdateValue_noContext_again_address (NDEBUG : Bool) (extract : Extract)
    (self s1 : ValueObjectMemory) (r : Bool)
    (hv : self.m_address.IsValid = true)
    (htag : self.m_value.GetValueType = ValueType.eValueTypeFileAddress
      ∨ self.m_value.GetValueType = ValueType.eValueTypeLoadAddress
      ∨ self.m_value.GetValueType = ValueType.eValueTypeHostAddress)
    (h : self.UpdateValue NDEBUG (Value.GetValueAsData extract) noContext = some (r, s1)) :
    s1.UpdateValue NDEBUG (Value.GetValueAsData extract) noContext = some (r, s1) := by
  have hres := resolvedValue_of_no_process noContext self rfl
  have hres1 := resolvedValue_of_no_process noContext s1 rfl
  cases hagg : ClangASTContext.IsAggregateType self.GetClangType
  · rw [UpdateValue_of_simple NDEBUG _ noContext self hv htag hagg, hres] at h
    simp only [Option.some.injEq, Prod.mk.injEq] at h
    obtain ⟨rfl, hs⟩ := h
    have hv1 : s1.m_address.IsValid = true := by rw [← hs]; exact hv
    have htag1 : s1.m_value.GetValueType = ValueType.eValueTypeFileAddress
        ∨ s1.m_value.GetValueType = ValueType.eValueTypeLoadAddress
        ∨ s1.m_value.GetValueType = ValueType.eValueTypeHostAddress := by
      rw [← hs]; exact htag
    have hagg1 : ClangASTContext.IsAggregateType s1.GetClangType = false := by
      rw [← hs]; exact hagg
    rw [UpdateValue_of_simple NDEBUG _ noContext s1 hv1 htag1 hagg1, hres1]
    subst hs
    simp only [snapshotArch_noContext, ValueObjectMemory.GetClangAST, GetValueAsData_again]
  · rw [UpdateValue_of_aggregate NDEBUG _ noContext self hv htag hagg, hres] at h
    simp only [Option.some.injEq, Prod.mk.injEq] at h
    obtain ⟨rfl, hs⟩ := h
    have hv1 : s1.m_address.IsValid = true := by rw [← hs]; exact hv
    have htag1 : s1.m_value.GetValueType = ValueType.eValueTypeFileAddress
        ∨ s1.m_value.GetValueType = ValueType.eValueTypeLoadAddress
        ∨ s1.m_value.GetValueType = ValueType.eValueTypeHostAddress := by
      rw [← hs]; exact htag
    have hagg1 : ClangASTContext.IsAggregateType s1.GetClangType = true := by
      rw [← hs]; exact hagg
    rw [UpdateValue_of_aggregate NDEBUG _ noContext s1 hv1 htag1 hagg1, hres1]
    subst hs
    simp [snapshotArch_noContext]

/-- With no execution context, a second call right after a returning call
returns the same boolean and leaves the object as the first call left it. -/
theorem UpdateValue_noContext_again (NDEBUG : Bool) (extract : Extract)
    (self s1 : ValueObjectMemory) (r : Bool)
    (h : self.UpdateValue NDEBUG (Value.GetValueAsData extract) noContext = some (r, s1)) :
    s1.UpdateValue NDEBUG (Value.GetValueAsData extract) noContext = some (r, s1) := by
  have hres := resolvedValue_of_no_process noContext self rfl
  cases hv : self.m_address.IsValid
  · rw [UpdateValue_of_invalid NDEBUG _ noContext self hv] at h
    simp only [Option.some.injEq, Prod.mk.injEq] at h
    obtain ⟨rfl, hs⟩ := h
    have hv1 : s1.m_address.IsValid = false := by rw [← hs]; exact hv
    rw [UpdateValue_of_invalid NDEBUG _ noContext s1 hv1]
    subst hs
    rfl
  · cases htag : self.m_value.GetValueType with
    | eValueTypeUnhandled raw =>
      rw [UpdateValue_of_unhandled NDEBUG _ noContext self raw hv htag] at h
      cases NDEBUG
      · simp at h
      · simp only [if_true, Option.some.injEq, Prod.mk.injEq] at h
        obtain ⟨rfl, hs⟩ := h
        have hv1 : s1.m_address.IsValid = true := by rw [← hs]; exact hv
        have htag1 : s1.m_value.GetValueType = ValueType.eValueTypeUnhandled raw := by
          rw [← hs]; exact htag
        rw [UpdateValue_of_unhandled true _ noContext s1 raw hv1 htag1]
        subst hs
        rfl
    | eValueTypeScalar =>
      rw [UpdateValue_of_scalar NDEBUG _ noContext self hv htag] at h
      simp only [Option.some.injEq, Prod.mk.injEq] at h
      obtain ⟨rfl, hs⟩ := h
      have hv1 : s1.m_address.IsValid = true := by rw [← hs]; exact hv
      have htag1 : s1.m_value.GetValueType = ValueType.eValueTypeScalar := by
        rw [← hs]; exact htag
      rw [UpdateValue_of_scalar NDEBUG _ noContext s1 hv1 htag1]
      subst hs
      simp only [snapshotArch_noContext, ValueObjectMemory.GetClangAST, GetValueAsData_again]
    | eValueTypeFileAddress =>
      exact UpdateValue_noContext_again_address NDEBUG extract self s1 r hv (by simp [htag]) h
    | eValueTypeLoadAddress =>
      exact UpdateValue_noContext_again_address NDEBUG extract self s1 r hv (by simp [htag]) h
    | eValueTypeHostAddress =>
      exact UpdateValue_noContext_again_address NDEBUG extract self s1 r hv (by simp [htag]) h

/-- A run starts with one call and continues on the object it leaves. -/
theorem UpdateValueSeq_cons (NDEBUG : Bool) (GetValueAsData : GetValueAsDataFn)
    (c : ExecutionContext) (cs : List ExecutionContext) (self : ValueObjectMemory) :
    ValueObjectMemory.UpdateValueSeq NDEBUG GetValueAsData (c :: cs) self
      = (self.UpdateValue NDEBUG GetValueAsData c).bind
          (fun p => ValueObjectMemory.UpdateValueSeq NDEBUG GetValueAsData cs p.2) := by
  simp only [ValueObjectMemory.UpdateValueSeq]
  cases self.UpdateValue NDEBUG GetValueAsData c <;> rfl

/-- With no execution context, any positive number of calls in a row ends in
the object that one call leaves. -/
theorem UpdateValueSeq_replicate_noContext (NDEBUG : Bool) (extract : Extract) (n : Nat) :
    ∀ self : ValueObjectMemory,
      ValueObjectMemory.UpdateValueSeq NDEBUG (Value.GetValueAsData extract)
          (List.replicate (n + 1) noContext) self
        = ValueObjectMemory.UpdateValueSeq NDEBUG (Value.GetValueAsData extract)
          [noContext] self := by
  induction n with
  | zero => intro self; rfl
  | succ n ih =>
    intro self
    rw [List.replicate_succ, UpdateValueSeq_cons, UpdateValueSeq_cons]
    cases h : self.UpdateValue NDEBUG (Value.GetValueAsData extract) noContext with
    | none => rfl
    | some p =>
      obtain ⟨r, s1⟩ := p
      simp only [Option.some_bind]
      rw [ih s1, UpdateValueSeq_cons,
        UpdateValue_noContext_again NDEBUG extract self s1 r h]
      rfl

/-- C10 (P3, idempotence without process), for the byte materializer of the
specification: with no execution context present (no target and no process),
N > 1 calls of UpdateValue in a row yield the same validity flag, the same
location tag and the same cached buffer as exactly one call; and that one
call returns unless the assertion of the default label fires. -/
theorem UpdateValueSeq_idempotent_without_context (NDEBUG : Bool) (extract : Extract)
    (self : ValueObjectMemory) (n : Nat) :
    (ValueObjectMemory.UpdateValueSeq NDEBUG (Value.GetValueAsData extract)
        (List.replicate (n + 2) noContext) self).map
        (fun s => (s.m_value_is_valid, s.m_value.GetValueType, s.m_data))
      = (ValueObjectMemory.UpdateValueSeq NDEBUG (Value.GetValueAsData extract)
        [noContext] self).map
        (fun s => (s.m_value_is_valid, s.m_value.GetValueType, s.m_data))
    ∧ (ValueObjectMemory.UpdateValueSeq NDEBUG (Value.GetValueAsData extract)
        [noContext] self).isSome = !self.assertionFires NDEBUG := by
  refine ⟨by rw [UpdateValueSeq_replicate_noContext NDEBUG extract (n + 1) self], ?_⟩
  cases hf : self.assertionFires NDEBUG
  · obtain ⟨r, s1, hs, -⟩ :=
      UpdateValue_returns NDEBUG (Value.GetValueAsData extract) noContext self hf
    simp [ValueObjectMemory.UpdateValueSeq, hs]
  · have hn := (UpdateValue_eq_none_iff NDEBUG (Value.GetValueAsData extract) noContext
      self).mpr hf
    simp [ValueObjectMemory.UpdateValueSeq, hn]

/-! ## Aggregates -/

/-- C11 (P4, aggregate address-only semantics): for an aggregate-typed object
whose location tag is FileAddress, LoadAddress or HostAddress, under every
execution context, UpdateValue makes no call of GetValueAsData: the call
returns, its outcome is the same for every extraction function, and the
bytes of the cached buffer after the call are the bytes before it. -/
theorem UpdateValue_aggregate_no_extraction (NDEBUG : Bool)
    (GetValueAsData : GetValueAsDataFn) (exe_ctx : ExecutionContext)
    (self : ValueObjectMemory)
    (hagg : ClangASTContext.IsAggregateType self.GetClangType = true)
    (htag : self.m_value.GetValueType = ValueType.eValueTypeFileAddress
      ∨ self.m_value.GetValueType = ValueType.eValueTypeLoadAddress
      ∨ self.m_value.GetValueType = ValueType.eValueTypeHostAddress) :
    self.extractionArgs exe_ctx = none ∧
    ∃ r self', self.UpdateValue NDEBUG GetValueAsData exe_ctx = some (r, self') ∧
      self'.m_data.m_bytes = self.m_data.m_bytes ∧
      ∀ other : GetValueAsDataFn,
        self.UpdateValue NDEBUG other exe_ctx = some (r, self') := by
  have hnone : self.extractionArgs exe_ctx = none := by
    unfold ValueObjectMemory.extractionArgs
    rcases htag with h | h | h <;> simp [h, hagg]
  refine ⟨hnone, ?_⟩
  cases hv : self.m_address.IsValid
  · rw [UpdateValue_of_invalid NDEBUG GetValueAsData exe_ctx self hv]
    refine ⟨_, _, rfl, snapshotArch_bytes exe_ctx self.m_data, fun other => ?_⟩
    rw [UpdateValue_of_invalid NDEBUG other exe_ctx self hv]
  · rw [UpdateValue_of_aggregate NDEBUG GetValueAsData exe_ctx self hv htag hagg]
    refine ⟨_, _, rfl, snapshotArch_bytes exe_ctx self.m_data, fun other => ?_⟩
    rw [UpdateValue_of_aggregate NDEBUG other exe_ctx self hv htag hagg]

/-- C11 at the scenario: the struct whose bytes were cached earlier is
updated under a live process; the location is resolved and the cached bytes
are not read again. -/
theorem UpdateValue_aggregate_no_extraction_witness :
    ClangASTContext.IsAggregateType
        ({ sampleObject sampleAddress sampleStructType with
            m_data := { m_bytes := [1, 2, 3], m_byte_order := 4, m_addr_size := 8 } }
          : ValueObjectMemory).GetClangType = true ∧
    ∃ r self',
      ({ sampleObject sampleAddress sampleStructType with
          m_data := { m_bytes := [1, 2, 3], m_byte_order := 4, m_addr_size := 8 } }
        : ValueObjectMemory).UpdateValue false (Value.GetValueAsData sampleExtract)
          liveContext = some (r, self') ∧
      self'.m_data.m_bytes = [1, 2, 3] := by
  obtain ⟨-, r, self', hs, hb, -⟩ :=
    UpdateValue_aggregate_no_extraction false (Value.GetValueAsData sampleExtract)
      liveContext
      { sampleObject sampleAddress sampleStructType with
        m_data := { m_bytes := [1, 2, 3], m_byte_order := 4, m_addr_size := 8 } }
      rfl (Or.inl rfl)
  exact ⟨rfl, r, self', hs, hb⟩

/-- C15: for an aggregate-typed object with a valid address whose location
tag is FileAddress, LoadAddress or HostAddress, UpdateValue succeeds under
every execution context and whatever the extraction function would answer:
it returns true, the validity flag is true and the stored error is success. -/
theorem UpdateValue_aggregate_succeeds (NDEBUG : Bool)
    (GetValueAsData : GetValueAsDataFn) (exe_ctx : ExecutionContext)
    (self : ValueObjectMemory)
    (hv : self.m_address.IsValid = true)
    (hagg : ClangASTContext.IsAggregateType self.GetClangType = true)
    (htag : self.m_value.GetValueType = ValueType.eValueTypeFileAddress
      ∨ self.m_value.GetValueType = ValueType.eValueTypeLoadAddress
      ∨ self.m_value.GetValueType = ValueType.eValueTypeHostAddress) :
    ∃ self', self.UpdateValue NDEBUG GetValueAsData exe_ctx = some (true, self') ∧
      self'.m_value_is_valid = true ∧ self'.m_error = Error.success ∧
      self'.m_error.Success = true := by
  rw [UpdateValue_of_aggregate NDEBUG GetValueAsData exe_ctx self hv htag hagg]
  exact ⟨_, rfl, rfl, rfl, rfl⟩

/-- C15 at the scenario: the struct at file address 0x1000 with no target
and no process, and an extraction function that would fail there. -/
theorem UpdateValue_aggregate_succeeds_witness :
    (sampleObject sampleAddress sampleStructType).m_address.IsValid = true ∧
    ClangASTContext.IsAggregateType
        (sampleObject sampleAddress sampleStructType).GetClangType = true ∧
    ∃ self', (sampleObject sampleAddress sampleStructType).UpdateValue false
        (Value.GetValueAsData sampleExtract) noContext = some (true, self') ∧
      self'.m_value_is_valid = true ∧ self'.m_error = Error.success ∧
      self'.m_error.Success = true :=
  ⟨rfl, rfl,
    UpdateValue_aggregate_succeeds false (Value.GetValueAsData sampleExtract) noContext
      (sampleObject sampleAddress sampleStructType) rfl rfl (Or.inl rfl)⟩

/-! ## The default label -/

/-- The `default:` label evaluated in a build without assertions, at a tag
that no object built by the constructor ever holds: for the
struct with the raw tag 7 and a valid address the assertion is compiled out,
nothing assigns `m_error`, and the call returns true with the validity flag
true and a success error. -/
theorem UpdateValue_unhandled_release_reports_success :
    unhandledObject.m_address.IsValid = true ∧
    unhandledObject.m_value.GetValueType.isHandled = false ∧
    (unhandledObject.UpdateValue true (Value.GetValueAsData sampleExtract) liveContext).map
      (fun p => (p.1, p.2.m_value_is_valid, p.2.m_error))
      = some (true, true, Error.success) := by
  refine ⟨rfl, rfl, ?_⟩
  decide

/-- Lines 132-134 in either build: for an object with a valid address whose
location tag is none of Scalar, FileAddress, LoadAddress and HostAddress,
UpdateValue aborts on the assertion when assertions are compiled in.  When
they are compiled out the label is an empty statement: nothing assigns
`m_error`, so the call returns true with the validity flag true and a
success error, and location, changed flag and buffer bytes are what they
were. -/
theorem UpdateValue_unhandled_tag (GetValueAsData : GetValueAsDataFn)
    (exe_ctx : ExecutionContext) (self : ValueObjectMemory)
    (hv : self.m_address.IsValid = true)
    (htag : self.m_value.GetValueType.isHandled = false) :
    self.UpdateValue false GetValueAsData exe_ctx = none ∧
    ∃ self', self.UpdateValue true GetValueAsData exe_ctx = some (true, self') ∧
      self'.m_value_is_valid = true ∧ self'.m_error = Error.success ∧
      self'.m_value.GetValueType = self.m_value.GetValueType ∧
      self'.m_value.GetScalar = self.m_value.GetScalar ∧
      self'.m_value_did_change = self.m_value_did_change ∧
      self'.m_data.m_bytes = self.m_data.m_bytes := by
  cases ht : self.m_value.GetValueType <;> simp [ht, ValueType.isHandled] at htag
  rename_i raw
  rw [UpdateValue_of_unhandled false GetValueAsData exe_ctx self raw hv ht,
    UpdateValue_of_unhandled true GetValueAsData exe_ctx self raw hv ht]
  refine ⟨rfl, _, rfl, rfl, rfl, ?_, rfl, rfl, snapshotArch_bytes exe_ctx self.m_data⟩
  exact ht

/-- `UpdateValue_unhandled_tag` at the struct with the raw tag 7. -/
theorem UpdateValue_unhandled_tag_witness :
    unhandledObject.m_address.IsValid = true ∧
    unhandledObject.m_value.GetValueType.isHandled = false ∧
    unhandledObject.UpdateValue false (Value.GetValueAsData sampleExtract) liveContext
      = none ∧
    ∃ self', unhandledObject.UpdateValue true (Value.GetValueAsData sampleExtract)
        liveContext = some (true, self') ∧
      self'.m_value_is_valid = true ∧ self'.m_error = Error.success := by
  obtain ⟨hnone, self', hs, hvalid, herr, -⟩ :=
    UpdateValue_unhandled_tag (Value.GetValueAsData sampleExtract) liveContext
      unhandledObject rfl rfl
  exact ⟨rfl, rfl, hnone, self', hs, hvalid, herr⟩

/-! ## Fresh results -/

/-- C13: two objects that differ only in their prior validity flag and prior
stored error come out of UpdateValue, under the same execution context, with
the same returned boolean, the same validity flag and the same stored error;
indeed the whole outcome is the same, so nothing of a stale validity or
error is retained. -/
theorem UpdateValue_fresh (NDEBUG : Bool) (GetValueAsData : GetValueAsDataFn)
    (exe_ctx : ExecutionContext) (self : ValueObjectMemory)
    (prior_valid : Bool) (prior_error : Error) :
    (({ self with m_value_is_valid := prior_valid, m_error := prior_error }
        : ValueObjectMemory).UpdateValue NDEBUG GetValueAsData exe_ctx).map
        (fun p => (p.1, p.2.m_value_is_valid, p.2.m_error))
      = (self.UpdateValue NDEBUG GetValueAsData exe_ctx).map
        (fun p => (p.1, p.2.m_value_is_valid, p.2.m_error))
    ∧ ({ self with m_value_is_valid := prior_valid, m_error := prior_error }
        : ValueObjectMemory).UpdateValue NDEBUG GetValueAsData exe_ctx
      = self.UpdateValue NDEBUG GetValueAsData exe_ctx := by
  have h : ({ self with m_value_is_valid := prior_valid, m_error := prior_error }
        : ValueObjectMemory).UpdateValue NDEBUG GetValueAsData exe_ctx
      = self.UpdateValue NDEBUG GetValueAsData exe_ctx := rfl
  exact ⟨by rw [h], h⟩

/-! ## Locations reachable from the constructor -/

/-- The constructor builds an object for every non-null type and leaves one
of the three tags Scalar, FileAddress and LoadAddress. -/
theorem ctor_tag_cases (base : ValueObject) (name : String) (address : Address)
    (ty : LLDBType) :
    ∃ obj, ValueObjectMemory.ctor base name address (some ty) = some obj ∧
      (obj.m_value.GetValueType = ValueType.eValueTypeScalar
        ∨ obj.m_value.GetValueType = ValueType.eValueTypeFileAddress
        ∨ obj.m_value.GetValueType = ValueType.eValueTypeLoadAddress) := by
  unfold ValueObjectMemory.ctor
  by_cases h1 : address.GetLoadAddress base.m_update_point_target = LLDB_INVALID_ADDRESS
  · by_cases h2 : address.GetFileAddress = LLDB_INVALID_ADDRESS
    · simp [h1, h2, ValueObjectMemory.SetName, Value.SetContext, Value.SetValueType,
        Value.SetScalar, Value.GetValueType]
    · simp [h1, h2, ValueObjectMemory.SetName, Value.SetContext, Value.SetValueType,
        Value.SetScalar, Value.GetValueType]
  · simp [h1, ValueObjectMemory.SetName, Value.SetContext, Value.SetValueType,
      Value.SetScalar, Value.GetValueType]

/-- One call on an object at a Scalar, FileAddress or LoadAddress location
returns and leaves one of these three tags. -/
theorem UpdateValue_three_tags (NDEBUG : Bool) (GetValueAsData : GetValueAsDataFn)
    (exe_ctx : ExecutionContext) (self : ValueObjectMemory)
    (h : self.m_value.GetValueType = ValueType.eValueTypeScalar
      ∨ self.m_value.GetValueType = ValueType.eValueTypeFileAddress
      ∨ self.m_value.GetValueType = ValueType.eValueTypeLoadAddress) :
    ∃ r self', self.UpdateValue NDEBUG GetValueAsData exe_ctx = some (r, self') ∧
      (self'.m_value.GetValueType = ValueType.eValueTypeScalar
        ∨ self'.m_value.GetValueType = ValueType.eValueTypeFileAddress
        ∨ self'.m_value.GetValueType = ValueType.eValueTypeLoadAddress) := by
  have hh : self.m_value.GetValueType.isHandled = true := by
    rcases h with h | h | h <;> rw [h] <;> rfl
  obtain ⟨r, self', hs, hval, -⟩ :=
    UpdateValue_returns NDEBUG GetValueAsData exe_ctx self
      (by simp [ValueObjectMemory.assertionFires, hh])
  refine ⟨r, self', hs, ?_⟩
  rw [hval]
  split
  · rcases resolvedValue_tag exe_ctx self with h' | ⟨-, h'⟩
    · rw [h']; exact h
    · exact Or.inr (Or.inr h')
  · exact h

/-- A run of calls on an object at a Scalar, FileAddress or LoadAddress
location never aborts and ends at one of these three tags. -/
theorem UpdateValueSeq_three_tags (NDEBUG : Bool) (GetValueAsData : GetValueAsDataFn)
    (cs : List ExecutionContext) :
    ∀ self : ValueObjectMemory,
      (self.m_value.GetValueType = ValueType.eValueTypeScalar
        ∨ self.m_value.GetValueType = ValueType.eValueTypeFileAddress
        ∨ self.m_value.GetValueType = ValueType.eValueTypeLoadAddress) →
      ∃ self', ValueObjectMemory.UpdateValueSeq NDEBUG GetValueAsData cs self = some self' ∧
        (self'.m_value.GetValueType = ValueType.eValueTypeScalar
          ∨ self'.m_value.GetValueType = ValueType.eValueTypeFileAddress
          ∨ self'.m_value.GetValueType = ValueType.eValueTypeLoadAddress) := by
  induction cs with
  | nil => intro self h; exact ⟨self, rfl, h⟩
  | cons c cs ih =>
    intro self h
    obtain ⟨r, s1, hs, h1⟩ := UpdateValue_three_tags NDEBUG GetValueAsData c self h
    obtain ⟨s2, hs2, h2⟩ := ih s1 h1
    refine ⟨s2, ?_, h2⟩
    rw [UpdateValueSeq_cons, hs]
    exact hs2

/-- C14: for every object that the constructor produces and every finite
sequence of UpdateValue calls under arbitrary execution contexts, no call
aborts and the location tag after the calls is one of Scalar, FileAddress
and LoadAddress.  HostAddress is never reached, and the tag always has a
`case` label, so the assertion of the `default:` label is never reached. -/
theorem ctor_UpdateValueSeq_tags (NDEBUG : Bool) (GetValueAsData : GetValueAsDataFn)
    (base : ValueObject) (name : String) (address : Address) (ty : LLDBType) :
    ∃ obj, ValueObjectMemory.ctor base name address (some ty) = some obj ∧
      ∀ cs : List ExecutionContext,
        ∃ s, ValueObjectMemory.UpdateValueSeq NDEBUG GetValueAsData cs obj = some s ∧
          (s.m_value.GetValueType = ValueType.eValueTypeScalar
            ∨ s.m_value.GetValueType = ValueType.eValueTypeFileAddress
            ∨ s.m_value.GetValueType = ValueType.eValueTypeLoadAddress) ∧
          s.m_value.GetValueType ≠ ValueType.eValueTypeHostAddress ∧
          s.m_value.GetValueType.isHandled = true ∧
          s.assertionFires NDEBUG = false := by
  obtain ⟨obj, hctor, htag⟩ := ctor_tag_cases base name address ty
  refine ⟨obj, hctor, fun cs => ?_⟩
  obtain ⟨s, hs, h⟩ := UpdateValueSeq_three_tags NDEBUG GetValueAsData cs obj htag
  have hh : s.m_value.GetValueType.isHandled = true := by
    rcases h with h | h | h <;> rw [h] <;> rfl
  refine ⟨s, hs, h, ?_, hh, by simp [ValueObjectMemory.assertionFires, hh]⟩
  rcases h with h | h | h <;> rw [h] <;> simp

/-! ## The frame of the changed flag -/

/-- C16: UpdateValue writes the changed flag only on the aggregate address
path.  For an object whose address is invalid, whose location tag is Scalar
or whose type is not an aggregate, every call that does not abort returns
with the changed flag it found, whatever the extraction answers. -/
theorem UpdateValue_changed_flag_frame (NDEBUG : Bool) (GetValueAsData : GetValueAsDataFn)
    (exe_ctx : ExecutionContext) (self : ValueObjectMemory)
    (h : self.m_address.IsValid = false
      ∨ self.m_value.GetValueType = ValueType.eValueTypeScalar
      ∨ ClangASTContext.IsAggregateType self.GetClangType = false)
    (hret : self.assertionFires NDEBUG = false) :
    ∃ r self', self.UpdateValue NDEBUG GetValueAsData exe_ctx = some (r, self') ∧
      self'.m_value_did_change = self.m_value_did_change := by
  cases hv : self.m_address.IsValid
  · rw [UpdateValue_of_invalid NDEBUG GetValueAsData exe_ctx self hv]
    exact ⟨_, _, rfl, rfl⟩
  · cases htag : self.m_value.GetValueType with
    | eValueTypeUnhandled raw =>
      have hn : NDEBUG = true := by
        simpa [ValueObjectMemory.assertionFires, hv, htag, ValueType.isHandled] using hret
      subst hn
      rw [UpdateValue_of_unhandled true GetValueAsData exe_ctx self raw hv htag]
      exact ⟨_, _, rfl, rfl⟩
    | eValueTypeScalar =>
      rw [UpdateValue_of_scalar NDEBUG GetValueAsData exe_ctx self hv htag]
      exact ⟨_, _, rfl, rfl⟩
    | eValueTypeFileAddress =>
      have hagg : ClangASTContext.IsAggregateType self.GetClangType = false := by
        rcases h with h | h | h
        · simp [hv] at h
        · simp [htag] at h
        · exact h
      rw [UpdateValue_of_simple NDEBUG GetValueAsData exe_ctx self hv (by simp [htag]) hagg]
      exact ⟨_, _, rfl, rfl⟩
    | eValueTypeLoadAddress =>
      have hagg : ClangASTContext.IsAggregateType self.GetClangType = false := by
        rcases h with h | h | h
        · simp [hv] at h
        · simp [htag] at h
        · exact h
      rw [UpdateValue_of_simple NDEBUG GetValueAsData exe_ctx self hv (by simp [htag]) hagg]
      exact ⟨_, _, rfl, rfl⟩
    | eValueTypeHostAddress =>
      have hagg : ClangASTContext.IsAggregateType self.GetClangType = false := by
        rcases h with h | h | h
        · simp [hv] at h
        · simp [htag] at h
        · exact h
      rw [UpdateValue_of_simple NDEBUG GetValueAsData exe_ctx self hv (by simp [htag]) hagg]
      exact ⟨_, _, rfl, rfl⟩

/-- C16 at the scenario: the integer whose changed flag was set by an earlier
stop keeps the flag through a call whose read fails. -/
theorem UpdateValue_changed_flag_frame_witness :
    ClangASTContext.IsAggregateType
        ({ sampleObject sampleAddress sampleIntType with m_value_did_change := true }
          : ValueObjectMemory).GetClangType = false ∧
    ({ sampleObject sampleAddress sampleIntType with m_value_did_change := true }
      : ValueObjectMemory).assertionFires false = false ∧
    ∃ r self',
      ({ sampleObject sampleAddress sampleIntType with m_value_did_change := true }
        : ValueObjectMemory).UpdateValue false (Value.GetValueAsData sampleExtract)
          staticContext = some (r, self') ∧
      self'.m_value_did_change = true :=
  ⟨rfl, by decide,
    UpdateValue_changed_flag_frame false (Value.GetValueAsData sampleExtract) staticContext
      { sampleObject sampleAddress sampleIntType with m_value_did_change := true }
      (Or.inr (Or.inr rfl)) (by decide)⟩

end lldb_private
